import Mathlib

/-!
Verification of the MystralNative hardware ray-tracing core
(`src/raytracing/vulkan_rt.{h,cpp}`, `src/raytracing/dxr_rt.{h,cpp}`,
`src/raytracing/rt_common.cpp`) against its natural-language specification.

The two vendor backends are embedded shallowly as explicit state machines:
GPU allocations that can fail at runtime are driven by boolean "oracle"
parameters (one per allocation site, in source order), driver-reported
values (device addresses, vendor limits) are plain parameters, and
`std::unordered_map` resource tables become association lists keyed by the
`uint32_t` ids.  Machine integers are modelled as `Nat`, with an explicit
`% 2^32` exactly where the source performs 32-bit arithmetic that can wrap
(the monotonic id counters, `static_cast<uint32_t>` narrowing, and the
`width*height*4` readback size).  Ghost fields (`errorLogs`, the
allocation and build counters) record externally visible effects — error
lines printed to `stderr`, GPU (re)allocations and recorded
acceleration-structure build commands — that the specification talks
about but that have no other footprint in the state.
-/

namespace MystralRT

/-- Wrapping increment of a `uint32_t` counter (`nextGeometryId_++` etc.). -/
def uinc (x : Nat) : Nat := (x + 1) % 2 ^ 32

/-- The `(size + alignment - 1) & ~(alignment - 1)` bit trick, computed in
`uint32_t` arithmetic exactly as the sources do (Vulkan
`createShaderBindingTable`, DXR `ALIGN_UP` macro): the complement of
`alignment - 1` in 32 bits is `2^32 - alignment`. -/
def alignUp32 (x a : Nat) : Nat := Nat.land ((x + a - 1) % 2 ^ 32) (2 ^ 32 - a)

/-- A backend resource handle, as declared in `rt_common.h` (the header is
not part of the sources here; modelled from the spec: a handle is a pair
`{ id : uint32, backendPointer : opaque }` and default-constructs to the
invalid sentinel `{0, null}`).  A non-null backend pointer is modelled by
`some r` carrying the pointed-to record, which is sound because records
reachable through cached pointers are never mutated through them. -/
structure RTHandle (R : Type) where
  id : Nat := 0
  ptr : Option R := none
deriving Repr

/-- Caller-supplied geometry description (`RTGeometryDesc`): vertex count and
stride, plus an optional `uint32` index array.  `hasIndices` models the
`desc.indices` pointer being non-null; the array contents do not influence
any control flow and are omitted. -/
structure RTGeometryDesc where
  vertexCount : Nat := 0
  vertexStride : Nat := 12
  hasIndices : Bool := false
  indexCount : Nat := 0
deriving Repr, DecidableEq

/-- Caller-supplied TLAS instance (`RTTLASInstance`): a 16-element
column-major 4x4 transform (entries are opaque 32-bit float patterns,
modelled as `Nat` since they are only ever copied), a BLAS handle, a
24-bit instance id and an 8-bit visibility mask.  `B` is the
backend-specific BLAS record type the handle's pointer refers to. -/
structure RTTLASInstance (B : Type) where
  transform : Fin 16 → Nat
  blas : RTHandle B := {}
  instanceId : Nat := 0
  mask : Nat := 0

/-- Options for `traceRays` (`TraceRaysOptions`): TLAS handle, output size,
optional uniform bytes.  `T` is the backend TLAS record type. -/
structure TraceRaysOptions (T : Type) where
  tlas : RTHandle T := {}
  width : Nat := 0
  height : Nat := 0
  uniformsSize : Nat := 0

/-- A stored 3x4 row-major transform matrix of 32-bit float patterns. -/
abbrev Mat34 := Fin 3 → Fin 4 → Nat

/-- Index of the column-major input element read for entry `(row, col)` of
the stored row-major 3x4 matrix: `transform[col * 4 + row]`. -/
def colIdx (r : Fin 3) (c : Fin 4) : Fin 16 := ⟨c.val * 4 + r.val, by omega⟩

/-- One assignment `matrix[row][col] = v` of the conversion loop. -/
def setEntry (m : Mat34) (r : Fin 3) (c : Fin 4) (v : Nat) : Mat34 :=
  fun r' c' => if r' = r ∧ c' = c then v else m r' c'

/-- The double loop `for row in [0,3) for col in [0,4):
matrix[row][col] = input[col*4+row]` converting a caller-supplied
column-major 4x4 matrix to the 3x4 row-major layout.  This loop appears
verbatim in four places: `VulkanRTBackend::createTLAS` / `updateTLAS`
(vulkan_rt.cpp) and `DXRBackend::createTLAS` / `updateTLAS` (dxr_rt.cpp);
all four share this single embedding.  The destination array starts
uninitialised in the source; the loop writes every entry, so the `0`
initial value below is never observable. -/
def convertTransform34 (input : Fin 16 → Nat) : Mat34 :=
  (List.finRange 3).foldl
    (fun m r => (List.finRange 4).foldl (fun m c => setEntry m r c (input (colIdx r c))) m)
    (fun _ _ => 0)

theorem convertTransform34_spec (input : Fin 16 → Nat) (r : Fin 3) (c : Fin 4) :
    convertTransform34 input r c = input (colIdx r c) := by
  fin_cases r <;> fin_cases c <;>
    simp +decide [convertTransform34, setEntry, List.finRange, colIdx]

theorem pow_dvd_land_right (a b k : Nat) (h : 2 ^ k ∣ b) : 2 ^ k ∣ a &&& b := by
  obtain ⟨c, rfl⟩ := h
  apply Nat.dvd_of_mod_eq_zero
  apply Nat.eq_of_testBit_eq
  intro i
  rw [Nat.testBit_mod_two_pow, Nat.testBit_land, Nat.zero_testBit]
  by_cases hik : i < k
  · have hb : (2 ^ k * c).testBit i = false := by
      rw [Nat.mul_comm, ← Nat.shiftLeft_eq, Nat.testBit_shiftLeft]
      simp [Nat.not_le.mpr hik]
    simp [hb]
  · simp [hik]

theorem alignUp32_dvd (x k : Nat) (hk : k ≤ 32) : 2 ^ k ∣ alignUp32 x (2 ^ k) := by
  unfold alignUp32
  exact pow_dvd_land_right _ _ _ (Nat.dvd_sub' (Nat.pow_dvd_pow 2 hk) dvd_rfl)

/-! ## Vulkan backend (`vulkan_rt.h` / `vulkan_rt.cpp`) -/

/-- `VulkanBuffer`: allocation flag (buffer + memory handles non-null),
byte size, and device address (0 when not requested/allocated). -/
structure VulkanBuffer where
  allocated : Bool := false
  size : Nat := 0
  deviceAddress : Nat := 0
deriving Repr, DecidableEq

/-- `VulkanGeometry` record: vertex/index buffers and the `uint32` counts
narrowed from the caller's `size_t` values. -/
structure VulkanGeometry where
  vertexBuffer : VulkanBuffer := {}
  indexBuffer : VulkanBuffer := {}
  vertexCount : Nat := 0
  indexCount : Nat := 0
  vertexStride : Nat := 12
deriving Repr, DecidableEq

/-- `VulkanBLAS` record: acceleration-structure object, its backing buffer,
its device address, and the geometry ids it was built from. -/
structure VulkanBLAS where
  asObj : Bool := false
  buffer : VulkanBuffer := {}
  deviceAddress : Nat := 0
  geometryIds : List Nat := []
deriving Repr, DecidableEq

/-- `VK_GEOMETRY_INSTANCE_TRIANGLE_FACING_CULL_DISABLE_BIT_KHR` (Vulkan API
constant, value 0x1). -/
def VK_CULL_DISABLE_BIT_KHR : Nat := 1

/-- One `VkAccelerationStructureInstanceKHR` as written into the TLAS
instance buffer.  All fields default to 0, matching the value-initialised
(zero-filled) elements of the `std::vector` the source builds. -/
structure VkInstanceRec where
  transform : Mat34 := fun _ _ => 0
  instanceCustomIndex : Nat := 0
  mask : Nat := 0
  sbtRecordOffset : Nat := 0
  flags : Nat := 0
  accelerationStructureReference : Nat := 0

/-- `VulkanTLAS` record: acceleration structure, backing buffer, instance
buffer together with its mapped contents, device address, and the
`uint32` instance count fixed at creation. -/
structure VulkanTLAS where
  asObj : Bool := false
  buffer : VulkanBuffer := {}
  instanceBuffer : VulkanBuffer := {}
  instanceRecords : List VkInstanceRec := []
  deviceAddress : Nat := 0
  instanceCount : Nat := 0

/-- The mutable state of one `VulkanRTBackend` instance.  Resource tables
are association lists (fresh keys are always distinct, see the id
invariants below); `errorLogs` counts error lines printed to `stderr`;
`outputAllocCount` / `stagingAllocCount` count (re)allocations of the
output image and readback staging buffer; `blasBuilds` / `tlasBuilds`
record, for every acceleration-structure build command submitted, its
`geometryCount` / instance `primitiveCount`. -/
structure VkState where
  initialized : Bool := false
  rtSupported : Bool := false
  geometries : List (Nat × VulkanGeometry) := []
  blases : List (Nat × VulkanBLAS) := []
  tlases : List (Nat × VulkanTLAS) := []
  nextGeometryId : Nat := 1
  nextBLASId : Nat := 1
  nextTLASId : Nat := 1
  outputWidth : Nat := 0
  outputHeight : Nat := 0
  outputImage : Bool := false
  stagingBuffer : VulkanBuffer := {}
  cameraUBO : VulkanBuffer := {}
  sbtBuffer : VulkanBuffer := {}
  instanceObj : Bool := false
  deviceObj : Bool := false
  commandPool : Bool := false
  descriptorPool : Bool := false
  pipeline : Bool := false
  errorLogs : Nat := 0
  outputAllocCount : Nat := 0
  stagingAllocCount : Nat := 0
  traceCount : Nat := 0
  blasBuilds : List Nat := []
  tlasBuilds : List Nat := []

/-- A default-constructed (fresh) backend instance. -/
def vkFresh : VkState := {}

/-- One error line printed to `stderr`; no other state is touched. -/
def vkLog (s : VkState) : VkState := { s with errorLogs := s.errorLogs + 1 }

/-- `isSupported()`: `initialized_ && rtSupported_`. -/
def vkIsSupported (s : VkState) : Bool := s.initialized && s.rtSupported

/-- Success/failure oracle for the GPU allocations of `createGeometry`
(vertex buffer, index buffer), in source order. -/
structure VkGeomAlloc where
  vertexOk : Bool := true
  indexOk : Bool := true
deriving Repr, DecidableEq

/-- `VulkanRTBackend::createGeometry`.  Fails (logging and returning the
default-constructed invalid handle, with no table entry) when the backend
is not initialized or a buffer allocation fails; otherwise uploads the
data, inserts the record under the fresh id `nextGeometryId_++` and
returns `{id, pointer}`.  There is no `vertexCount == 0` check in the
source. -/
def vkCreateGeometry (s : VkState) (desc : RTGeometryDesc) (a : VkGeomAlloc) :
    VkState × RTHandle VulkanGeometry :=
  if s.initialized = false then (vkLog s, {})
  else if a.vertexOk = false then (vkLog s, {})
  else
    let vbuf : VulkanBuffer := { allocated := true, size := desc.vertexCount * desc.vertexStride }
    if desc.hasIndices = true ∧ 0 < desc.indexCount then
      if a.indexOk = false then (vkLog s, {})
      else
        let geom : VulkanGeometry :=
          { vertexBuffer := vbuf
            indexBuffer := { allocated := true, size := desc.indexCount * 4 }
            vertexCount := desc.vertexCount % 2 ^ 32
            indexCount := desc.indexCount % 2 ^ 32
            vertexStride := desc.vertexStride }
        ({ s with geometries := (s.nextGeometryId, geom) :: s.geometries
                  nextGeometryId := uinc s.nextGeometryId },
         { id := s.nextGeometryId, ptr := some geom })
    else
      let geom : VulkanGeometry :=
        { vertexBuffer := vbuf
          vertexCount := desc.vertexCount % 2 ^ 32
          indexCount := desc.indexCount % 2 ^ 32
          vertexStride := desc.vertexStride }
      ({ s with geometries := (s.nextGeometryId, geom) :: s.geometries
                nextGeometryId := uinc s.nextGeometryId },
       { id := s.nextGeometryId, ptr := some geom })

/-- Replace the value stored under key `k` (used for the in-place TLAS
refit; the key is guaranteed present and unique). -/
def updEntry {α : Type} (l : List (Nat × α)) (k : Nat) (v : α) : List (Nat × α) :=
  l.map (fun p => if p.1 = k then (k, v) else p)

/-- `VulkanRTBackend::destroyGeometry`: erase and release if the id is
present, no-op otherwise. -/
def vkDestroyGeometry (s : VkState) (h : RTHandle VulkanGeometry) : VkState :=
  match s.geometries.lookup h.id with
  | none => s
  | some _ => { s with geometries := s.geometries.eraseP (fun p => p.1 == h.id) }

/-- Success/failure oracle for `createBLAS` allocations (result buffer, AS
object, scratch buffer, in source order) plus the driver-reported device
address of the new acceleration structure. -/
structure VkBLASAlloc where
  bufferOk : Bool := true
  asOk : Bool := true
  scratchOk : Bool := true
  asAddr : Nat := 0
deriving Repr, DecidableEq

/-- `VulkanRTBackend::createBLAS`.  Rejects an uninitialized backend or
`count == 0`.  Geometry handles whose cached pointer is null are silently
skipped (`if (!geom) continue;`), so the recorded build command's
`geometryCount` is the number of non-null handles — possibly zero.  On
success the build is submitted synchronously, the scratch buffer is
released, and the record is inserted under `nextBLASId_++`. -/
def vkCreateBLAS (s : VkState) (geoms : List (RTHandle VulkanGeometry)) (a : VkBLASAlloc) :
    VkState × RTHandle VulkanBLAS :=
  if s.initialized = false ∨ geoms.length = 0 then (vkLog s, {})
  else
    let asGeometries := geoms.filterMap (fun h => h.ptr)
    let geometryIds := (geoms.filter (fun h => h.ptr.isSome)).map (fun h => h.id)
    if a.bufferOk = false then (vkLog s, {})
    else if a.asOk = false then (vkLog s, {})
    else if a.scratchOk = false then (vkLog s, {})
    else
      let blas : VulkanBLAS :=
        { asObj := true, buffer := { allocated := true },
          deviceAddress := a.asAddr, geometryIds := geometryIds }
      ({ s with blases := (s.nextBLASId, blas) :: s.blases
                nextBLASId := uinc s.nextBLASId
                blasBuilds := s.blasBuilds ++ [asGeometries.length] },
       { id := s.nextBLASId, ptr := some blas })

/-- `VulkanRTBackend::destroyBLAS`. -/
def vkDestroyBLAS (s : VkState) (h : RTHandle VulkanBLAS) : VkState :=
  match s.blases.lookup h.id with
  | none => s
  | some _ => { s with blases := s.blases.eraseP (fun p => p.1 == h.id) }

/-- The `VkAccelerationStructureInstanceKHR` the source fills in for one
caller instance whose BLAS pointer is non-null: converted transform,
24-bit masked custom index, mask, zero SBT offset, cull-disable flag, and
the BLAS device address. -/
def vkInstanceRecordOf (inst : RTTLASInstance VulkanBLAS) (blasPtr : VulkanBLAS) :
    VkInstanceRec :=
  { transform := convertTransform34 inst.transform
    instanceCustomIndex := Nat.land inst.instanceId 0xFFFFFF
    mask := inst.mask
    sbtRecordOffset := 0
    flags := VK_CULL_DISABLE_BIT_KHR
    accelerationStructureReference := blasPtr.deviceAddress }

/-- A zero-filled `VkAccelerationStructureInstanceKHR`, as left by the
value-initialising `std::vector` constructor when `updateTLAS` skips an
instance with a null BLAS pointer. -/
def vkZeroInstanceRec : VkInstanceRec := {}

/-- Success/failure oracle for `createTLAS` allocations (instance buffer,
result buffer, AS object, scratch buffer, in source order) plus the
driver-reported TLAS device address. -/
structure VkTLASAlloc where
  instOk : Bool := true
  bufferOk : Bool := true
  asOk : Bool := true
  scratchOk : Bool := true
  asAddr : Nat := 0
deriving Repr, DecidableEq

/-- `VulkanRTBackend::createTLAS`.  Rejects an uninitialized backend,
`count == 0`, and any instance whose BLAS pointer is null (the conversion
loop returns the invalid handle before anything is allocated).  Every
intermediate failure releases whatever was created, leaving the state
unchanged apart from the error log.  On success the build command (with
`primitiveCount = (uint32_t)count`) is submitted synchronously and the
record inserted under `nextTLASId_++`. -/
def vkCreateTLAS (s : VkState) (insts : List (RTTLASInstance VulkanBLAS)) (a : VkTLASAlloc) :
    VkState × RTHandle VulkanTLAS :=
  if s.initialized = false ∨ insts.length = 0 then (vkLog s, {})
  else
    match insts.mapM (fun inst => inst.blas.ptr.map (vkInstanceRecordOf inst)) with
    | none => (vkLog s, {})
    | some records =>
      if a.instOk = false then (vkLog s, {})
      else if a.bufferOk = false then (vkLog s, {})
      else if a.asOk = false then (vkLog s, {})
      else if a.scratchOk = false then (vkLog s, {})
      else
        let tlas : VulkanTLAS :=
          { asObj := true, buffer := { allocated := true },
            instanceBuffer := { allocated := true, size := insts.length * 64 },
            instanceRecords := records,
            deviceAddress := a.asAddr,
            instanceCount := insts.length % 2 ^ 32 }
        ({ s with tlases := (s.nextTLASId, tlas) :: s.tlases
                  nextTLASId := uinc s.nextTLASId
                  tlasBuilds := s.tlasBuilds ++ [insts.length % 2 ^ 32] },
         { id := s.nextTLASId, ptr := some tlas })

/-- `VulkanRTBackend::updateTLAS`.  An unknown TLAS id or an instance-count
mismatch is rejected with an error log and no state change.  Otherwise
the instance buffer is overwritten with freshly converted records —
instances with a null BLAS pointer are skipped, leaving the
value-initialised zero record — and an `UPDATE`-mode rebuild of the same
structure is submitted synchronously (the scratch-buffer `createBuffer`
result is not checked in the source, so the build is recorded
regardless). -/
def vkUpdateTLAS (s : VkState) (h : RTHandle VulkanTLAS)
    (insts : List (RTTLASInstance VulkanBLAS)) : VkState :=
  match s.tlases.lookup h.id with
  | none => vkLog s
  | some tlasRec =>
    if insts.length ≠ tlasRec.instanceCount then vkLog s
    else
      let records := insts.map (fun inst =>
        match inst.blas.ptr with
        | none => vkZeroInstanceRec
        | some blasPtr => vkInstanceRecordOf inst blasPtr)
      { s with tlases := updEntry s.tlases h.id { tlasRec with instanceRecords := records }
               tlasBuilds := s.tlasBuilds ++ [insts.length % 2 ^ 32] }

/-- `VulkanRTBackend::destroyTLAS`. -/
def vkDestroyTLAS (s : VkState) (h : RTHandle VulkanTLAS) : VkState :=
  match s.tlases.lookup h.id with
  | none => s
  | some _ => { s with tlases := s.tlases.eraseP (fun p => p.1 == h.id) }

/-- `VulkanRTBackend::traceRays`.  Rejects an uninitialized backend or a
null TLAS pointer.  If `(width, height)` differs from the stored output
size, the output image, its view and the staging buffer are released and
recreated — the staging buffer sized `width * height * 4` in `uint32`
arithmetic — and the stored size updated; otherwise nothing is
reallocated.  Descriptors are then refreshed and one trace dispatch is
submitted synchronously. -/
def vkTraceRays (s : VkState) (opts : TraceRaysOptions VulkanTLAS) : VkState :=
  if s.initialized = false then vkLog s
  else
    match opts.tlas.ptr with
    | none => vkLog s
    | some _ =>
      let s1 :=
        if opts.width ≠ s.outputWidth ∨ opts.height ≠ s.outputHeight then
          { s with outputWidth := opts.width
                   outputHeight := opts.height
                   outputImage := true
                   outputAllocCount := s.outputAllocCount + 1
                   stagingBuffer := { allocated := true,
                                      size := opts.width * opts.height * 4 % 2 ^ 32 }
                   stagingAllocCount := s.stagingAllocCount + 1 }
        else s
      { s1 with traceCount := s1.traceCount + 1 }

/-- Success/failure oracle for the nine sequential steps of
`VulkanRTBackend::initialize` (instance, physical device, logical device,
extension functions, command pool, descriptor pool, RT pipeline, SBT,
camera UBO), in source order. -/
structure VkInitOracle where
  instanceOk : Bool := true
  physicalDeviceOk : Bool := true
  deviceOk : Bool := true
  extFuncsOk : Bool := true
  commandPoolOk : Bool := true
  descriptorPoolOk : Bool := true
  pipelineOk : Bool := true
  sbtOk : Bool := true
  uboOk : Bool := true
deriving Repr, DecidableEq

/-- `VulkanRTBackend::initialize`.  Re-entrant (`if (initialized_) return
rtSupported_;`), then runs nine steps in order; the first failure logs
and returns `false`, leaving every object created by the earlier steps in
place (nothing is rolled back).  Only after all steps succeed are
`initialized_` and `rtSupported_` set. -/
def vkInitRT (s : VkState) (o : VkInitOracle) : VkState × Bool :=
  if s.initialized = true then (s, s.rtSupported)
  else if o.instanceOk = false then (vkLog s, false)
  else
    let s1 := { s with instanceObj := true }
    if o.physicalDeviceOk = false then (vkLog s1, false)
    else if o.deviceOk = false then (vkLog s1, false)
    else
      let s2 := { s1 with deviceObj := true }
      if o.extFuncsOk = false then (vkLog s2, false)
      else if o.commandPoolOk = false then (vkLog s2, false)
      else
        let s3 := { s2 with commandPool := true }
        if o.descriptorPoolOk = false then (vkLog s3, false)
        else
          let s4 := { s3 with descriptorPool := true }
          if o.pipelineOk = false then (vkLog s4, false)
          else
            let s5 := { s4 with pipeline := true }
            if o.sbtOk = false then (vkLog s5, false)
            else
              let s6 := { s5 with sbtBuffer := { allocated := true } }
              if o.uboOk = false then (vkLog s6, false)
              else
                ({ s6 with cameraUBO := { allocated := true },
                           initialized := true, rtSupported := true }, true)

/-- The state of a backend immediately after a successful `initialize()`
on a fresh instance. -/
def vkReady : VkState := (vkInitRT vkFresh {}).1

/-! ## DXR backend (`dxr_rt.h` / `dxr_rt.cpp`) -/

/-- `DXRBuffer`: committed resource (allocation flag), GPU virtual address,
byte size. -/
structure DXRBuffer where
  allocated : Bool := false
  size : Nat := 0
  gpuAddress : Nat := 0
deriving Repr, DecidableEq

/-- `DXRGeometry` record. -/
structure DXRGeometry where
  vertexBuffer : DXRBuffer := {}
  indexBuffer : DXRBuffer := {}
  vertexCount : Nat := 0
  indexCount : Nat := 0
  vertexStride : Nat := 12
deriving Repr, DecidableEq

/-- `DXRBLAS` record: acceleration-structure resource and its GPU address,
plus the source geometry ids. -/
structure DXRBLAS where
  asObj : Bool := false
  gpuAddress : Nat := 0
  geometryIds : List Nat := []
deriving Repr, DecidableEq

/-- `D3D12_RAYTRACING_INSTANCE_FLAG_TRIANGLE_CULL_DISABLE` (D3D12 API
constant, value 0x1). -/
def D3D12_TRIANGLE_CULL_DISABLE : Nat := 1

/-- One `D3D12_RAYTRACING_INSTANCE_DESC` as written into the TLAS instance
buffer; all fields default to 0 like the value-initialised vector
elements. -/
structure DXRInstanceRec where
  transform : Mat34 := fun _ _ => 0
  instanceID : Nat := 0
  instanceMask : Nat := 0
  hitGroupIndex : Nat := 0
  flags : Nat := 0
  accelerationStructure : Nat := 0

/-- `DXRTLAS` record. -/
structure DXRTLAS where
  asObj : Bool := false
  gpuAddress : Nat := 0
  instanceBuffer : DXRBuffer := {}
  instanceRecords : List DXRInstanceRec := []
  instanceCount : Nat := 0

/-- The mutable state of one `DXRBackend` instance; ghost fields as in
`VkState`. -/
structure DxrState where
  initialized : Bool := false
  rtSupported : Bool := false
  geometries : List (Nat × DXRGeometry) := []
  blases : List (Nat × DXRBLAS) := []
  tlases : List (Nat × DXRTLAS) := []
  nextGeometryId : Nat := 1
  nextBLASId : Nat := 1
  nextTLASId : Nat := 1
  outputWidth : Nat := 0
  outputHeight : Nat := 0
  outputTexture : Bool := false
  readbackBuffer : DXRBuffer := {}
  cameraBuffer : DXRBuffer := {}
  sbtBuffer : DXRBuffer := {}
  deviceObj : Bool := false
  commandQueue : Bool := false
  commandList : Bool := false
  fenceObj : Bool := false
  descriptorHeap : Bool := false
  pipeline : Bool := false
  errorLogs : Nat := 0
  outputAllocCount : Nat := 0
  readbackAllocCount : Nat := 0
  traceCount : Nat := 0
  blasBuilds : List Nat := []
  tlasBuilds : List Nat := []

/-- A default-constructed (fresh) DXR backend instance. -/
def dxrFresh : DxrState := {}

/-- One error line printed to `stderr`. -/
def dxrLog (s : DxrState) : DxrState := { s with errorLogs := s.errorLogs + 1 }

/-- `DXRBackend::isSupported`. -/
def dxrIsSupported (s : DxrState) : Bool := s.initialized && s.rtSupported

/-- `DXRBackend::createGeometry`.  Same control flow as the Vulkan version:
only the initialization and allocation-failure checks exist (an
index-buffer failure abandons the local record, leaving no table
entry). -/
def dxrCreateGeometry (s : DxrState) (desc : RTGeometryDesc) (a : VkGeomAlloc) :
    DxrState × RTHandle DXRGeometry :=
  if s.initialized = false then (dxrLog s, {})
  else if a.vertexOk = false then (dxrLog s, {})
  else
    let vbuf : DXRBuffer := { allocated := true, size := desc.vertexCount * desc.vertexStride }
    if desc.hasIndices = true ∧ 0 < desc.indexCount then
      if a.indexOk = false then (dxrLog s, {})
      else
        let geom : DXRGeometry :=
          { vertexBuffer := vbuf
            indexBuffer := { allocated := true, size := desc.indexCount * 4 }
            vertexCount := desc.vertexCount % 2 ^ 32
            indexCount := desc.indexCount % 2 ^ 32
            vertexStride := desc.vertexStride }
        ({ s with geometries := (s.nextGeometryId, geom) :: s.geometries
                  nextGeometryId := uinc s.nextGeometryId },
         { id := s.nextGeometryId, ptr := some geom })
    else
      let geom : DXRGeometry :=
        { vertexBuffer := vbuf
          vertexCount := desc.vertexCount % 2 ^ 32
          indexCount := desc.indexCount % 2 ^ 32
          vertexStride := desc.vertexStride }
      ({ s with geometries := (s.nextGeometryId, geom) :: s.geometries
                nextGeometryId := uinc s.nextGeometryId },
       { id := s.nextGeometryId, ptr := some geom })

/-- `DXRBackend::destroyGeometry`. -/
def dxrDestroyGeometry (s : DxrState) (h : RTHandle DXRGeometry) : DxrState :=
  match s.geometries.lookup h.id with
  | none => s
  | some _ => { s with geometries := s.geometries.eraseP (fun p => p.1 == h.id) }

/-- Oracle for `DXRBackend::createBLAS` allocations: scratch buffer first,
then the acceleration-structure resource (source order), plus the
reported GPU virtual address. -/
structure DxrBLASAlloc where
  scratchOk : Bool := true
  asOk : Bool := true
  asAddr : Nat := 0
deriving Repr, DecidableEq

/-- `DXRBackend::createBLAS`.  Mirrors the Vulkan version: null geometry
pointers are skipped (`if (!geom) continue;`), so the recorded build's
`NumDescs` is the number of non-null handles — possibly zero. -/
def dxrCreateBLAS (s : DxrState) (geoms : List (RTHandle DXRGeometry)) (a : DxrBLASAlloc) :
    DxrState × RTHandle DXRBLAS :=
  if s.initialized = false ∨ geoms.length = 0 then (dxrLog s, {})
  else
    let geomDescs := geoms.filterMap (fun h => h.ptr)
    let geometryIds := (geoms.filter (fun h => h.ptr.isSome)).map (fun h => h.id)
    if a.scratchOk = false then (dxrLog s, {})
    else if a.asOk = false then (dxrLog s, {})
    else
      let blas : DXRBLAS :=
        { asObj := true, gpuAddress := a.asAddr, geometryIds := geometryIds }
      ({ s with blases := (s.nextBLASId, blas) :: s.blases
                nextBLASId := uinc s.nextBLASId
                blasBuilds := s.blasBuilds ++ [geomDescs.length] },
       { id := s.nextBLASId, ptr := some blas })

/-- `DXRBackend::destroyBLAS`. -/
def dxrDestroyBLAS (s : DxrState) (h : RTHandle DXRBLAS) : DxrState :=
  match s.blases.lookup h.id with
  | none => s
  | some _ => { s with blases := s.blases.eraseP (fun p => p.1 == h.id) }

/-- The `D3D12_RAYTRACING_INSTANCE_DESC` filled in for one caller instance
with a non-null BLAS pointer. -/
def dxrInstanceRecordOf (inst : RTTLASInstance DXRBLAS) (blasPtr : DXRBLAS) :
    DXRInstanceRec :=
  { transform := convertTransform34 inst.transform
    instanceID := Nat.land inst.instanceId 0xFFFFFF
    instanceMask := inst.mask
    hitGroupIndex := 0
    flags := D3D12_TRIANGLE_CULL_DISABLE
    accelerationStructure := blasPtr.gpuAddress }

/-- A zero-filled `D3D12_RAYTRACING_INSTANCE_DESC`. -/
def dxrZeroInstanceRec : DXRInstanceRec := {}

/-- Oracle for `DXRBackend::createTLAS` allocations (instance buffer,
scratch buffer, AS resource, in source order) plus the reported GPU
address. -/
structure DxrTLASAlloc where
  instOk : Bool := true
  scratchOk : Bool := true
  asOk : Bool := true
  asAddr : Nat := 0
deriving Repr, DecidableEq

/-- `DXRBackend::createTLAS`.  Same contract as the Vulkan version; the
recorded build's `NumDescs` is `(UINT)count`. -/
def dxrCreateTLAS (s : DxrState) (insts : List (RTTLASInstance DXRBLAS)) (a : DxrTLASAlloc) :
    DxrState × RTHandle DXRTLAS :=
  if s.initialized = false ∨ insts.length = 0 then (dxrLog s, {})
  else
    match insts.mapM (fun inst => inst.blas.ptr.map (dxrInstanceRecordOf inst)) with
    | none => (dxrLog s, {})
    | some records =>
      if a.instOk = false then (dxrLog s, {})
      else if a.scratchOk = false then (dxrLog s, {})
      else if a.asOk = false then (dxrLog s, {})
      else
        let tlas : DXRTLAS :=
          { asObj := true, gpuAddress := a.asAddr,
            instanceBuffer := { allocated := true, size := insts.length * 64 },
            instanceRecords := records,
            instanceCount := insts.length % 2 ^ 32 }
        ({ s with tlases := (s.nextTLASId, tlas) :: s.tlases
                  nextTLASId := uinc s.nextTLASId
                  tlasBuilds := s.tlasBuilds ++ [insts.length % 2 ^ 32] },
         { id := s.nextTLASId, ptr := some tlas })

/-- `DXRBackend::updateTLAS`.  Identical control flow to the Vulkan
version: unknown id or count mismatch → log and return unchanged;
otherwise zero-filled records for null BLAS pointers, converted records
for the rest, and a `PERFORM_UPDATE` rebuild submitted synchronously
(the scratch allocation result is unchecked in the source). -/
def dxrUpdateTLAS (s : DxrState) (h : RTHandle DXRTLAS)
    (insts : List (RTTLASInstance DXRBLAS)) : DxrState :=
  match s.tlases.lookup h.id with
  | none => dxrLog s
  | some tlasRec =>
    if insts.length ≠ tlasRec.instanceCount then dxrLog s
    else
      let records := insts.map (fun inst =>
        match inst.blas.ptr with
        | none => dxrZeroInstanceRec
        | some blasPtr => dxrInstanceRecordOf inst blasPtr)
      { s with tlases := updEntry s.tlases h.id { tlasRec with instanceRecords := records }
               tlasBuilds := s.tlasBuilds ++ [insts.length % 2 ^ 32] }

/-- `DXRBackend::destroyTLAS`. -/
def dxrDestroyTLAS (s : DxrState) (h : RTHandle DXRTLAS) : DxrState :=
  match s.tlases.lookup h.id with
  | none => s
  | some _ => { s with tlases := s.tlases.eraseP (fun p => p.1 == h.id) }

/-- `DXRBackend::traceRays`.  Same reallocation policy as the Vulkan
version: on a size change the output texture and readback buffer are
released and recreated once, the readback buffer sized
`width * height * 4` in `uint32` arithmetic. -/
def dxrTraceRays (s : DxrState) (opts : TraceRaysOptions DXRTLAS) : DxrState :=
  if s.initialized = false then dxrLog s
  else
    match opts.tlas.ptr with
    | none => dxrLog s
    | some _ =>
      let s1 :=
        if opts.width ≠ s.outputWidth ∨ opts.height ≠ s.outputHeight then
          { s with outputWidth := opts.width
                   outputHeight := opts.height
                   outputTexture := true
                   outputAllocCount := s.outputAllocCount + 1
                   readbackBuffer := { allocated := true,
                                       size := opts.width * opts.height * 4 % 2 ^ 32 }
                   readbackAllocCount := s.readbackAllocCount + 1 }
        else s
      { s1 with traceCount := s1.traceCount + 1 }

/-- Oracle for the steps of `DXRBackend::initialize` (device, command
queue, command allocator/list, fence, descriptor heaps, RT pipeline, SBT
buffer allocation, SBT identifier retrieval, camera buffer), in source
order.  The SBT step is split because `createShaderBindingTable` can fail
after its upload buffer has already been created. -/
structure DxrInitOracle where
  deviceOk : Bool := true
  queueOk : Bool := true
  cmdListOk : Bool := true
  fenceOk : Bool := true
  heapsOk : Bool := true
  pipelineOk : Bool := true
  sbtBufOk : Bool := true
  sbtIdsOk : Bool := true
  cameraOk : Bool := true
deriving Repr, DecidableEq

/-- `DXRBackend::initialize`: same shape as the Vulkan version — first
failing step logs and returns `false` with everything already created
left in place; flags set only after full success. -/
def dxrInitRT (s : DxrState) (o : DxrInitOracle) : DxrState × Bool :=
  if s.initialized = true then (s, s.rtSupported)
  else if o.deviceOk = false then (dxrLog s, false)
  else
    let s1 := { s with deviceObj := true }
    if o.queueOk = false then (dxrLog s1, false)
    else
      let s2 := { s1 with commandQueue := true }
      if o.cmdListOk = false then (dxrLog s2, false)
      else
        let s3 := { s2 with commandList := true }
        if o.fenceOk = false then (dxrLog s3, false)
        else
          let s4 := { s3 with fenceObj := true }
          if o.heapsOk = false then (dxrLog s4, false)
          else
            let s5 := { s4 with descriptorHeap := true }
            if o.pipelineOk = false then (dxrLog s5, false)
            else
              let s6 := { s5 with pipeline := true }
              if o.sbtBufOk = false then (dxrLog s6, false)
              else
                let s7 := { s6 with sbtBuffer := { allocated := true } }
                if o.sbtIdsOk = false then (dxrLog s7, false)
                else if o.cameraOk = false then (dxrLog s7, false)
                else
                  ({ s7 with cameraBuffer := { allocated := true },
                             initialized := true, rtSupported := true }, true)

/-- A DXR backend immediately after a successful `initialize()`. -/
def dxrReady : DxrState := (dxrInitRT dxrFresh {}).1

/-! ## Shader binding tables -/

/-- A `VkStridedDeviceAddressRegionKHR`. -/
structure VkStridedRegion where
  deviceAddress : Nat := 0
  stride : Nat := 0
  size : Nat := 0
deriving Repr, DecidableEq

/-- The three SBT regions. -/
structure VkSBT where
  raygen : VkStridedRegion
  miss : VkStridedRegion
  hit : VkStridedRegion
deriving Repr, DecidableEq

/-- The region layout computed by
`VulkanRTBackend::createShaderBindingTable` from the device-reported
`shaderGroupHandleSize`, `shaderGroupHandleAlignment` and
`shaderGroupBaseAlignment` and the SBT buffer's device address:
`handleSize` is aligned up to the handle alignment, each region's size is
that value aligned up to the base alignment, and the three regions are
laid out back to back from the buffer start. -/
def vkMakeSBTRegions (handleSize handleAlignment baseAlignment sbtAddress : Nat) : VkSBT :=
  let handleSizeAligned := alignUp32 handleSize handleAlignment
  let raygenSize := alignUp32 handleSizeAligned baseAlignment
  let missSize := alignUp32 handleSizeAligned baseAlignment
  let hitSize := alignUp32 handleSizeAligned baseAlignment
  { raygen := { deviceAddress := sbtAddress, stride := raygenSize, size := raygenSize }
    miss := { deviceAddress := sbtAddress + raygenSize, stride := handleSizeAligned,
              size := missSize }
    hit := { deviceAddress := sbtAddress + raygenSize + missSize,
             stride := handleSizeAligned, size := hitSize } }

/-- `D3D12_SHADER_IDENTIFIER_SIZE_IN_BYTES` (D3D12 API constant). -/
def D3D12_SHADER_IDENTIFIER_SIZE_IN_BYTES : Nat := 32

/-- `D3D12_RAYTRACING_SHADER_RECORD_BYTE_ALIGNMENT` (D3D12 API constant);
`SHADER_RECORD_ALIGNMENT` in dxr_rt.cpp. -/
def D3D12_SHADER_RECORD_BYTE_ALIGNMENT : Nat := 32

/-- `D3D12_RAYTRACING_SHADER_TABLE_BYTE_ALIGNMENT` (D3D12 API constant):
the required alignment of every shader-table start address passed to
`DispatchRays` — this is the DXR "shader-table base alignment" the spec
refers to.  The source never references it. -/
def D3D12_SHADER_TABLE_BYTE_ALIGNMENT : Nat := 64

/-- `shaderRecordSize_` in `DXRBackend::createShaderBindingTable`:
`ALIGN_UP(identifierSize, SHADER_RECORD_ALIGNMENT)`. -/
def dxrShaderRecordSize : Nat :=
  alignUp32 D3D12_SHADER_IDENTIFIER_SIZE_IN_BYTES D3D12_SHADER_RECORD_BYTE_ALIGNMENT

/-- `raygenShaderRecord_ = sbtBuffer_.gpuAddress + 0 * shaderRecordSize_`. -/
def dxrRaygenShaderRecord (gpuAddress : Nat) : Nat := gpuAddress + 0 * dxrShaderRecordSize

/-- `missShaderRecord_ = sbtBuffer_.gpuAddress + 1 * shaderRecordSize_`. -/
def dxrMissShaderRecord (gpuAddress : Nat) : Nat := gpuAddress + 1 * dxrShaderRecordSize

/-- `hitGroupShaderRecord_ = sbtBuffer_.gpuAddress + 2 * shaderRecordSize_`. -/
def dxrHitGroupShaderRecord (gpuAddress : Nat) : Nat := gpuAddress + 2 * dxrShaderRecordSize

/-- Disjointness of the half-open byte ranges `[a1, a1+s1)` and
`[a2, a2+s2)`. -/
def rangesDisjoint (a1 s1 a2 s2 : Nat) : Prop := a1 + s1 ≤ a2 ∨ a2 + s2 ≤ a1

/-! ## Backend factory and stub (`rt_common.cpp`) -/

/-- `RTBackendType` (declared in `rt_common.h`; the values used by the
sources are `None`, `Vulkan`, `DXR` and `Metal`). -/
inductive RTBackendType where
  | None
  | Vulkan
  | DXR
  | Metal
deriving Repr, DecidableEq

/-- `StubRTBackend::isSupported`: always `false`. -/
def stubIsSupported : Bool := false

/-- `StubRTBackend::getBackendType`: `RTBackendType::None`. -/
def stubGetBackendType : RTBackendType := .None

/-- `StubRTBackend::createGeometry`: logs an error (the returned `Bool`)
and returns the default-constructed invalid handle.  No exception is
thrown (the function is total). -/
def stubCreateGeometry (_ : RTGeometryDesc) : RTHandle Unit × Bool := ({}, true)

/-- `StubRTBackend::createBLAS`: logs and returns the invalid handle. -/
def stubCreateBLAS (_ : List (RTHandle Unit)) : RTHandle Unit × Bool := ({}, true)

/-- `StubRTBackend::createTLAS`: logs and returns the invalid handle. -/
def stubCreateTLAS (_ : List (RTTLASInstance Unit)) : RTHandle Unit × Bool := ({}, true)

/-- Which concrete backend the factory returned. -/
inductive RTBackendChoice where
  | dxrBackend
  | vulkanBackend
  | metalBackend
  | stubBackend
deriving Repr, DecidableEq

/-- `createRTBackend` (rt_common.cpp): tries the vendor backends in the
platform's priority order — each guarded by its compile-time flag
(`MYSTRAL_HAS_DXR` / `MYSTRAL_HAS_VULKAN_RT` / `MYSTRAL_HAS_METAL_RT`,
modelled as `Bool` parameters) — returning the first whose
`initialize()` succeeds, and the stub otherwise.  The C++ returns a
`std::unique_ptr`, which could in principle be null, so the result type
is an `Option`; every branch returns `some`.  The Metal implementation is
not among the sources (only its header is), so its `initialize()` outcome
is a plain `Bool` oracle. -/
def createRTBackend (hasDXR hasVulkanRT hasMetalRT : Bool)
    (dO : DxrInitOracle) (vO : VkInitOracle) (metalInitOk : Bool) :
    Option RTBackendChoice :=
  if hasDXR = true ∧ (dxrInitRT dxrFresh dO).2 = true then some .dxrBackend
  else if hasVulkanRT = true ∧ (vkInitRT vkFresh vO).2 = true then some .vulkanBackend
  else if hasMetalRT = true ∧ metalInitOk = true then some .metalBackend
  else some .stubBackend

/-! ## Operation traces

The public resource operations of one backend instance, as an inductive
`Op` type with a step function; each step also emits the handle ids it
successfully issued, so that lifetime properties of the id sequence can be
stated over arbitrary call traces. -/

/-- A successfully issued handle id, tagged with its resource table. -/
inductive IssueEvent where
  | geom (id : Nat)
  | blas (id : Nat)
  | tlas (id : Nat)
deriving Repr, DecidableEq

/-- Geometry-table ids in an event list. -/
def selGeom : IssueEvent → Option Nat
  | .geom i => some i
  | _ => none

/-- BLAS-table ids in an event list. -/
def selBLAS : IssueEvent → Option Nat
  | .blas i => some i
  | _ => none

/-- TLAS-table ids in an event list. -/
def selTLAS : IssueEvent → Option Nat
  | .tlas i => some i
  | _ => none

/-- One public resource call on a `VulkanRTBackend`, with its allocation
oracles. -/
inductive VkOp where
  | createGeometry (desc : RTGeometryDesc) (a : VkGeomAlloc)
  | destroyGeometry (h : RTHandle VulkanGeometry)
  | createBLAS (geoms : List (RTHandle VulkanGeometry)) (a : VkBLASAlloc)
  | destroyBLAS (h : RTHandle VulkanBLAS)
  | createTLAS (insts : List (RTTLASInstance VulkanBLAS)) (a : VkTLASAlloc)
  | updateTLAS (h : RTHandle VulkanTLAS) (insts : List (RTTLASInstance VulkanBLAS))
  | destroyTLAS (h : RTHandle VulkanTLAS)
  | traceRays (opts : TraceRaysOptions VulkanTLAS)

/-- Execute one Vulkan call; a create that returns a non-null pointer
(success) emits the id it handed out. -/
def vkStep (s : VkState) (op : VkOp) : VkState × List IssueEvent :=
  match op with
  | .createGeometry d a =>
    let r := vkCreateGeometry s d a
    (r.1, if r.2.ptr.isSome then [.geom r.2.id] else [])
  | .destroyGeometry h => (vkDestroyGeometry s h, [])
  | .createBLAS gs a =>
    let r := vkCreateBLAS s gs a
    (r.1, if r.2.ptr.isSome then [.blas r.2.id] else [])
  | .destroyBLAS h => (vkDestroyBLAS s h, [])
  | .createTLAS insts a =>
    let r := vkCreateTLAS s insts a
    (r.1, if r.2.ptr.isSome then [.tlas r.2.id] else [])
  | .updateTLAS h insts => (vkUpdateTLAS s h insts, [])
  | .destroyTLAS h => (vkDestroyTLAS s h, [])
  | .traceRays opts => (vkTraceRays s opts, [])

/-- One public resource call on a `DXRBackend`. -/
inductive DxrOp where
  | createGeometry (desc : RTGeometryDesc) (a : VkGeomAlloc)
  | destroyGeometry (h : RTHandle DXRGeometry)
  | createBLAS (geoms : List (RTHandle DXRGeometry)) (a : DxrBLASAlloc)
  | destroyBLAS (h : RTHandle DXRBLAS)
  | createTLAS (insts : List (RTTLASInstance DXRBLAS)) (a : DxrTLASAlloc)
  | updateTLAS (h : RTHandle DXRTLAS) (insts : List (RTTLASInstance DXRBLAS))
  | destroyTLAS (h : RTHandle DXRTLAS)
  | traceRays (opts : TraceRaysOptions DXRTLAS)

/-- Execute one DXR call. -/
def dxrStep (s : DxrState) (op : DxrOp) : DxrState × List IssueEvent :=
  match op with
  | .createGeometry d a =>
    let r := dxrCreateGeometry s d a
    (r.1, if r.2.ptr.isSome then [.geom r.2.id] else [])
  | .destroyGeometry h => (dxrDestroyGeometry s h, [])
  | .createBLAS gs a =>
    let r := dxrCreateBLAS s gs a
    (r.1, if r.2.ptr.isSome then [.blas r.2.id] else [])
  | .destroyBLAS h => (dxrDestroyBLAS s h, [])
  | .createTLAS insts a =>
    let r := dxrCreateTLAS s insts a
    (r.1, if r.2.ptr.isSome then [.tlas r.2.id] else [])
  | .updateTLAS h insts => (dxrUpdateTLAS s h insts, [])
  | .destroyTLAS h => (dxrDestroyTLAS s h, [])
  | .traceRays opts => (dxrTraceRays s opts, [])

/-- Run a trace of calls, collecting every issued id in order. -/
def runFold {σ ω : Type} (step : σ → ω → σ × List IssueEvent) :
    σ → List ω → σ × List IssueEvent
  | s, [] => (s, [])
  | s, op :: ops =>
    let p := step s op
    let q := runFold step p.1 ops
    (q.1, p.2 ++ q.2)

/-- A Vulkan call trace. -/
def vkRun : VkState → List VkOp → VkState × List IssueEvent := runFold vkStep

/-- A DXR call trace. -/
def dxrRun : DxrState → List DxrOp → DxrState × List IssueEvent := runFold dxrStep

theorem uinc_eq_add_one (x : Nat) (h : x + 1 < 2 ^ 32) : uinc x = x + 1 :=
  Nat.mod_eq_of_lt h

/-- Generic id-issue induction: if every step either issues nothing and
keeps a counter unchanged, or issues exactly the counter's current value
and increments it, then along any trace the issued values are strictly
increasing and bounded below by the starting counter. -/
theorem runFold_issued {σ ω : Type} (step : σ → ω → σ × List IssueEvent)
    (proj : σ → Nat) (sel : IssueEvent → Option Nat)
    (hstep : ∀ s op, proj s + 1 < 2 ^ 32 →
      ((step s op).2.filterMap sel = [] ∧ proj (step s op).1 = proj s) ∨
      ((step s op).2.filterMap sel = [proj s] ∧ proj (step s op).1 = proj s + 1)) :
    ∀ (ops : List ω) (s : σ), proj s + ops.length < 2 ^ 32 →
      List.Pairwise (· < ·) ((runFold step s ops).2.filterMap sel) ∧
      ∀ x ∈ (runFold step s ops).2.filterMap sel, proj s ≤ x := by
  intro ops
  induction ops with
  | nil => intro s _; simp [runFold]
  | cons op ops ih =>
    intro s hbound
    have hlt : proj s + 1 < 2 ^ 32 := by
      have := List.length_cons op ops
      omega
    have hrun : runFold step s (op :: ops) =
        ((runFold step (step s op).1 ops).1,
         (step s op).2 ++ (runFold step (step s op).1 ops).2) := rfl
    rcases hstep s op hlt with ⟨he, hp⟩ | ⟨he, hp⟩
    · have hb2 : proj (step s op).1 + ops.length < 2 ^ 32 := by
        rw [hp]; simp at hbound; omega
      obtain ⟨ihp, ihb⟩ := ih (step s op).1 hb2
      rw [hrun]
      simp only [List.filterMap_append, he, List.nil_append]
      refine ⟨ihp, fun x hx => ?_⟩
      have := ihb x hx
      omega
    · have hb2 : proj (step s op).1 + ops.length < 2 ^ 32 := by
        rw [hp]; simp at hbound; omega
      obtain ⟨ihp, ihb⟩ := ih (step s op).1 hb2
      rw [hrun]
      simp only [List.filterMap_append, he, List.singleton_append]
      constructor
      · refine List.pairwise_cons.mpr ⟨fun x hx => ?_, ihp⟩
        have := ihb x hx
        omega
      · intro x hx
        rcases List.mem_cons.mp hx with rfl | hx
        · exact Nat.le_refl _
        · have := ihb x hx
          omega


/-! ## Characterisation and frame lemmas -/

theorem vkCreateGeometry_char (s : VkState) (d : RTGeometryDesc) (a : VkGeomAlloc) :
    vkCreateGeometry s d a = (vkLog s, {}) ∨
    ∃ g : VulkanGeometry,
      vkCreateGeometry s d a =
        ({ s with geometries := (s.nextGeometryId, g) :: s.geometries
                  nextGeometryId := uinc s.nextGeometryId },
         { id := s.nextGeometryId, ptr := some g }) := by
  unfold vkCreateGeometry
  split_ifs <;> first
    | (left; rfl)
    | (right; exact ⟨_, rfl⟩)

theorem vkCreateBLAS_char (s : VkState) (gs : List (RTHandle VulkanGeometry))
    (a : VkBLASAlloc) :
    vkCreateBLAS s gs a = (vkLog s, {}) ∨
    ∃ b : VulkanBLAS,
      vkCreateBLAS s gs a =
        ({ s with blases := (s.nextBLASId, b) :: s.blases
                  nextBLASId := uinc s.nextBLASId
                  blasBuilds := s.blasBuilds ++ [(gs.filterMap (fun h => h.ptr)).length] },
         { id := s.nextBLASId, ptr := some b }) := by
  unfold vkCreateBLAS
  split_ifs <;> first
    | (left; rfl)
    | (right; exact ⟨_, rfl⟩)

theorem vkCreateTLAS_char (s : VkState) (insts : List (RTTLASInstance VulkanBLAS))
    (a : VkTLASAlloc) :
    vkCreateTLAS s insts a = (vkLog s, {}) ∨
    ∃ t : VulkanTLAS,
      vkCreateTLAS s insts a =
        ({ s with tlases := (s.nextTLASId, t) :: s.tlases
                  nextTLASId := uinc s.nextTLASId
                  tlasBuilds := s.tlasBuilds ++ [insts.length % 2 ^ 32] },
         { id := s.nextTLASId, ptr := some t }) := by
  unfold vkCreateTLAS
  rcases hm : insts.mapM (fun inst => inst.blas.ptr.map (vkInstanceRecordOf inst)) with _ | records <;>
    simp only [hm] <;> split_ifs <;> first
      | (left; rfl)
      | (right; exact ⟨_, rfl⟩)

theorem vkUpdateTLAS_frame (s : VkState) (h : RTHandle VulkanTLAS)
    (insts : List (RTTLASInstance VulkanBLAS)) :
    (vkUpdateTLAS s h insts).nextGeometryId = s.nextGeometryId ∧
    (vkUpdateTLAS s h insts).nextBLASId = s.nextBLASId ∧
    (vkUpdateTLAS s h insts).nextTLASId = s.nextTLASId ∧
    (vkUpdateTLAS s h insts).initialized = s.initialized ∧
    (vkUpdateTLAS s h insts).rtSupported = s.rtSupported := by
  unfold vkUpdateTLAS
  rcases s.tlases.lookup h.id with _ | tl
  · exact ⟨rfl, rfl, rfl, rfl, rfl⟩
  · dsimp only
    split_ifs <;> exact ⟨rfl, rfl, rfl, rfl, rfl⟩

theorem vkDestroyGeometry_frame (s : VkState) (h : RTHandle VulkanGeometry) :
    (vkDestroyGeometry s h).nextGeometryId = s.nextGeometryId ∧
    (vkDestroyGeometry s h).nextBLASId = s.nextBLASId ∧
    (vkDestroyGeometry s h).nextTLASId = s.nextTLASId ∧
    (vkDestroyGeometry s h).initialized = s.initialized ∧
    (vkDestroyGeometry s h).rtSupported = s.rtSupported := by
  unfold vkDestroyGeometry
  rcases s.geometries.lookup h.id with _ | g <;> exact ⟨rfl, rfl, rfl, rfl, rfl⟩

theorem vkDestroyBLAS_frame (s : VkState) (h : RTHandle VulkanBLAS) :
    (vkDestroyBLAS s h).nextGeometryId = s.nextGeometryId ∧
    (vkDestroyBLAS s h).nextBLASId = s.nextBLASId ∧
    (vkDestroyBLAS s h).nextTLASId = s.nextTLASId ∧
    (vkDestroyBLAS s h).initialized = s.initialized ∧
    (vkDestroyBLAS s h).rtSupported = s.rtSupported := by
  unfold vkDestroyBLAS
  rcases s.blases.lookup h.id with _ | g <;> exact ⟨rfl, rfl, rfl, rfl, rfl⟩

theorem vkDestroyTLAS_frame (s : VkState) (h : RTHandle VulkanTLAS) :
    (vkDestroyTLAS s h).nextGeometryId = s.nextGeometryId ∧
    (vkDestroyTLAS s h).nextBLASId = s.nextBLASId ∧
    (vkDestroyTLAS s h).nextTLASId = s.nextTLASId ∧
    (vkDestroyTLAS s h).initialized = s.initialized ∧
    (vkDestroyTLAS s h).rtSupported = s.rtSupported := by
  unfold vkDestroyTLAS
  rcases s.tlases.lookup h.id with _ | g <;> exact ⟨rfl, rfl, rfl, rfl, rfl⟩

theorem vkTraceRays_frame (s : VkState) (opts : TraceRaysOptions VulkanTLAS) :
    (vkTraceRays s opts).nextGeometryId = s.nextGeometryId ∧
    (vkTraceRays s opts).nextBLASId = s.nextBLASId ∧
    (vkTraceRays s opts).nextTLASId = s.nextTLASId ∧
    (vkTraceRays s opts).initialized = s.initialized ∧
    (vkTraceRays s opts).rtSupported = s.rtSupported := by
  unfold vkTraceRays
  rcases hp : opts.tlas.ptr with _ | t <;>
    simp only [hp] <;> split_ifs <;> exact ⟨rfl, rfl, rfl, rfl, rfl⟩
theorem dxrCreateGeometry_char (s : DxrState) (d : RTGeometryDesc) (a : VkGeomAlloc) :
    dxrCreateGeometry s d a = (dxrLog s, {}) ∨
    ∃ g : DXRGeometry,
      dxrCreateGeometry s d a =
        ({ s with geometries := (s.nextGeometryId, g) :: s.geometries
                  nextGeometryId := uinc s.nextGeometryId },
         { id := s.nextGeometryId, ptr := some g }) := by
  unfold dxrCreateGeometry
  split_ifs <;> first
    | (left; rfl)
    | (right; exact ⟨_, rfl⟩)

theorem dxrCreateBLAS_char (s : DxrState) (gs : List (RTHandle DXRGeometry))
    (a : DxrBLASAlloc) :
    dxrCreateBLAS s gs a = (dxrLog s, {}) ∨
    ∃ b : DXRBLAS,
      dxrCreateBLAS s gs a =
        ({ s with blases := (s.nextBLASId, b) :: s.blases
                  nextBLASId := uinc s.nextBLASId
                  blasBuilds := s.blasBuilds ++ [(gs.filterMap (fun h => h.ptr)).length] },
         { id := s.nextBLASId, ptr := some b }) := by
  unfold dxrCreateBLAS
  split_ifs <;> first
    | (left; rfl)
    | (right; exact ⟨_, rfl⟩)

theorem dxrCreateTLAS_char (s : DxrState) (insts : List (RTTLASInstance DXRBLAS))
    (a : DxrTLASAlloc) :
    dxrCreateTLAS s insts a = (dxrLog s, {}) ∨
    ∃ t : DXRTLAS,
      dxrCreateTLAS s insts a =
        ({ s with tlases := (s.nextTLASId, t) :: s.tlases
                  nextTLASId := uinc s.nextTLASId
                  tlasBuilds := s.tlasBuilds ++ [insts.length % 2 ^ 32] },
         { id := s.nextTLASId, ptr := some t }) := by
  unfold dxrCreateTLAS
  rcases hm : insts.mapM (fun inst => inst.blas.ptr.map (dxrInstanceRecordOf inst)) with _ | records <;>
    simp only [hm] <;> split_ifs <;> first
      | (left; rfl)
      | (right; exact ⟨_, rfl⟩)

theorem dxrUpdateTLAS_frame (s : DxrState) (h : RTHandle DXRTLAS)
    (insts : List (RTTLASInstance DXRBLAS)) :
    (dxrUpdateTLAS s h insts).nextGeometryId = s.nextGeometryId ∧
    (dxrUpdateTLAS s h insts).nextBLASId = s.nextBLASId ∧
    (dxrUpdateTLAS s h insts).nextTLASId = s.nextTLASId ∧
    (dxrUpdateTLAS s h insts).initialized = s.initialized ∧
    (dxrUpdateTLAS s h insts).rtSupported = s.rtSupported := by
  unfold dxrUpdateTLAS
  rcases s.tlases.lookup h.id with _ | tl
  · exact ⟨rfl, rfl, rfl, rfl, rfl⟩
  · dsimp only
    split_ifs <;> exact ⟨rfl, rfl, rfl, rfl, rfl⟩

theorem dxrDestroyGeometry_frame (s : DxrState) (h : RTHandle DXRGeometry) :
    (dxrDestroyGeometry s h).nextGeometryId = s.nextGeometryId ∧
    (dxrDestroyGeometry s h).nextBLASId = s.nextBLASId ∧
    (dxrDestroyGeometry s h).nextTLASId = s.nextTLASId ∧
    (dxrDestroyGeometry s h).initialized = s.initialized ∧
    (dxrDestroyGeometry s h).rtSupported = s.rtSupported := by
  unfold dxrDestroyGeometry
  rcases s.geometries.lookup h.id with _ | g <;> exact ⟨rfl, rfl, rfl, rfl, rfl⟩

theorem dxrDestroyBLAS_frame (s : DxrState) (h : RTHandle DXRBLAS) :
    (dxrDestroyBLAS s h).nextGeometryId = s.nextGeometryId ∧
    (dxrDestroyBLAS s h).nextBLASId = s.nextBLASId ∧
    (dxrDestroyBLAS s h).nextTLASId = s.nextTLASId ∧
    (dxrDestroyBLAS s h).initialized = s.initialized ∧
    (dxrDestroyBLAS s h).rtSupported = s.rtSupported := by
  unfold dxrDestroyBLAS
  rcases s.blases.lookup h.id with _ | g <;> exact ⟨rfl, rfl, rfl, rfl, rfl⟩

theorem dxrDestroyTLAS_frame (s : DxrState) (h : RTHandle DXRTLAS) :
    (dxrDestroyTLAS s h).nextGeometryId = s.nextGeometryId ∧
    (dxrDestroyTLAS s h).nextBLASId = s.nextBLASId ∧
    (dxrDestroyTLAS s h).nextTLASId = s.nextTLASId ∧
    (dxrDestroyTLAS s h).initialized = s.initialized ∧
    (dxrDestroyTLAS s h).rtSupported = s.rtSupported := by
  unfold dxrDestroyTLAS
  rcases s.tlases.lookup h.id with _ | g <;> exact ⟨rfl, rfl, rfl, rfl, rfl⟩

theorem dxrTraceRays_frame (s : DxrState) (opts : TraceRaysOptions DXRTLAS) :
    (dxrTraceRays s opts).nextGeometryId = s.nextGeometryId ∧
    (dxrTraceRays s opts).nextBLASId = s.nextBLASId ∧
    (dxrTraceRays s opts).nextTLASId = s.nextTLASId ∧
    (dxrTraceRays s opts).initialized = s.initialized ∧
    (dxrTraceRays s opts).rtSupported = s.rtSupported := by
  unfold dxrTraceRays
  rcases hp : opts.tlas.ptr with _ | t <;>
    simp only [hp] <;> split_ifs <;> exact ⟨rfl, rfl, rfl, rfl, rfl⟩
theorem vkStep_geomCtr (s : VkState) (op : VkOp) (hlt : s.nextGeometryId + 1 < 2 ^ 32) :
    ((vkStep s op).2.filterMap selGeom = [] ∧
      (vkStep s op).1.nextGeometryId = s.nextGeometryId) ∨
    ((vkStep s op).2.filterMap selGeom = [s.nextGeometryId] ∧
      (vkStep s op).1.nextGeometryId = s.nextGeometryId + 1) := by
  cases op with
  | createGeometry d a =>
    rcases vkCreateGeometry_char s d a with hc | ⟨g, hc⟩
    · left; simp [vkStep, hc, vkLog, selGeom]
    · right; simp [vkStep, hc, selGeom, uinc_eq_add_one _ hlt]
  | destroyGeometry h => left; simpa [vkStep, selGeom] using (vkDestroyGeometry_frame s h).1
  | createBLAS gs a =>
    rcases vkCreateBLAS_char s gs a with hc | ⟨b, hc⟩
    · left; simp [vkStep, hc, vkLog, selGeom]
    · left; simp [vkStep, hc, selGeom]
  | destroyBLAS h => left; simpa [vkStep, selGeom] using (vkDestroyBLAS_frame s h).1
  | createTLAS insts a =>
    rcases vkCreateTLAS_char s insts a with hc | ⟨t, hc⟩
    · left; simp [vkStep, hc, vkLog, selGeom]
    · left; simp [vkStep, hc, selGeom]
  | updateTLAS h insts => left; simpa [vkStep, selGeom] using (vkUpdateTLAS_frame s h insts).1
  | destroyTLAS h => left; simpa [vkStep, selGeom] using (vkDestroyTLAS_frame s h).1
  | traceRays opts => left; simpa [vkStep, selGeom] using (vkTraceRays_frame s opts).1

theorem vkStep_blasCtr (s : VkState) (op : VkOp) (hlt : s.nextBLASId + 1 < 2 ^ 32) :
    ((vkStep s op).2.filterMap selBLAS = [] ∧
      (vkStep s op).1.nextBLASId = s.nextBLASId) ∨
    ((vkStep s op).2.filterMap selBLAS = [s.nextBLASId] ∧
      (vkStep s op).1.nextBLASId = s.nextBLASId + 1) := by
  cases op with
  | createGeometry d a =>
    rcases vkCreateGeometry_char s d a with hc | ⟨g, hc⟩
    · left; simp [vkStep, hc, vkLog, selBLAS]
    · left; simp [vkStep, hc, selBLAS]
  | destroyGeometry h => left; simpa [vkStep, selBLAS] using (vkDestroyGeometry_frame s h).2.1
  | createBLAS gs a =>
    rcases vkCreateBLAS_char s gs a with hc | ⟨b, hc⟩
    · left; simp [vkStep, hc, vkLog, selBLAS]
    · right; simp [vkStep, hc, selBLAS, uinc_eq_add_one _ hlt]
  | destroyBLAS h => left; simpa [vkStep, selBLAS] using (vkDestroyBLAS_frame s h).2.1
  | createTLAS insts a =>
    rcases vkCreateTLAS_char s insts a with hc | ⟨t, hc⟩
    · left; simp [vkStep, hc, vkLog, selBLAS]
    · left; simp [vkStep, hc, selBLAS]
  | updateTLAS h insts => left; simpa [vkStep, selBLAS] using (vkUpdateTLAS_frame s h insts).2.1
  | destroyTLAS h => left; simpa [vkStep, selBLAS] using (vkDestroyTLAS_frame s h).2.1
  | traceRays opts => left; simpa [vkStep, selBLAS] using (vkTraceRays_frame s opts).2.1

theorem vkStep_tlasCtr (s : VkState) (op : VkOp) (hlt : s.nextTLASId + 1 < 2 ^ 32) :
    ((vkStep s op).2.filterMap selTLAS = [] ∧
      (vkStep s op).1.nextTLASId = s.nextTLASId) ∨
    ((vkStep s op).2.filterMap selTLAS = [s.nextTLASId] ∧
      (vkStep s op).1.nextTLASId = s.nextTLASId + 1) := by
  cases op with
  | createGeometry d a =>
    rcases vkCreateGeometry_char s d a with hc | ⟨g, hc⟩
    · left; simp [vkStep, hc, vkLog, selTLAS]
    · left; simp [vkStep, hc, selTLAS]
  | destroyGeometry h => left; simpa [vkStep, selTLAS] using (vkDestroyGeometry_frame s h).2.2.1
  | createBLAS gs a =>
    rcases vkCreateBLAS_char s gs a with hc | ⟨b, hc⟩
    · left; simp [vkStep, hc, vkLog, selTLAS]
    · left; simp [vkStep, hc, selTLAS]
  | destroyBLAS h => left; simpa [vkStep, selTLAS] using (vkDestroyBLAS_frame s h).2.2.1
  | createTLAS insts a =>
    rcases vkCreateTLAS_char s insts a with hc | ⟨t, hc⟩
    · left; simp [vkStep, hc, vkLog, selTLAS]
    · right; simp [vkStep, hc, selTLAS, uinc_eq_add_one _ hlt]
  | updateTLAS h insts => left; simpa [vkStep, selTLAS] using (vkUpdateTLAS_frame s h insts).2.2.1
  | destroyTLAS h => left; simpa [vkStep, selTLAS] using (vkDestroyTLAS_frame s h).2.2.1
  | traceRays opts => left; simpa [vkStep, selTLAS] using (vkTraceRays_frame s opts).2.2.1

theorem dxrStep_geomCtr (s : DxrState) (op : DxrOp) (hlt : s.nextGeometryId + 1 < 2 ^ 32) :
    ((dxrStep s op).2.filterMap selGeom = [] ∧
      (dxrStep s op).1.nextGeometryId = s.nextGeometryId) ∨
    ((dxrStep s op).2.filterMap selGeom = [s.nextGeometryId] ∧
      (dxrStep s op).1.nextGeometryId = s.nextGeometryId + 1) := by
  cases op with
  | createGeometry d a =>
    rcases dxrCreateGeometry_char s d a with hc | ⟨g, hc⟩
    · left; simp [dxrStep, hc, dxrLog, selGeom]
    · right; simp [dxrStep, hc, selGeom, uinc_eq_add_one _ hlt]
  | destroyGeometry h => left; simpa [dxrStep, selGeom] using (dxrDestroyGeometry_frame s h).1
  | createBLAS gs a =>
    rcases dxrCreateBLAS_char s gs a with hc | ⟨b, hc⟩
    · left; simp [dxrStep, hc, dxrLog, selGeom]
    · left; simp [dxrStep, hc, selGeom]
  | destroyBLAS h => left; simpa [dxrStep, selGeom] using (dxrDestroyBLAS_frame s h).1
  | createTLAS insts a =>
    rcases dxrCreateTLAS_char s insts a with hc | ⟨t, hc⟩
    · left; simp [dxrStep, hc, dxrLog, selGeom]
    · left; simp [dxrStep, hc, selGeom]
  | updateTLAS h insts => left; simpa [dxrStep, selGeom] using (dxrUpdateTLAS_frame s h insts).1
  | destroyTLAS h => left; simpa [dxrStep, selGeom] using (dxrDestroyTLAS_frame s h).1
  | traceRays opts => left; simpa [dxrStep, selGeom] using (dxrTraceRays_frame s opts).1

theorem dxrStep_blasCtr (s : DxrState) (op : DxrOp) (hlt : s.nextBLASId + 1 < 2 ^ 32) :
    ((dxrStep s op).2.filterMap selBLAS = [] ∧
      (dxrStep s op).1.nextBLASId = s.nextBLASId) ∨
    ((dxrStep s op).2.filterMap selBLAS = [s.nextBLASId] ∧
      (dxrStep s op).1.nextBLASId = s.nextBLASId + 1) := by
  cases op with
  | createGeometry d a =>
    rcases dxrCreateGeometry_char s d a with hc | ⟨g, hc⟩
    · left; simp [dxrStep, hc, dxrLog, selBLAS]
    · left; simp [dxrStep, hc, selBLAS]
  | destroyGeometry h => left; simpa [dxrStep, selBLAS] using (dxrDestroyGeometry_frame s h).2.1
  | createBLAS gs a =>
    rcases dxrCreateBLAS_char s gs a with hc | ⟨b, hc⟩
    · left; simp [dxrStep, hc, dxrLog, selBLAS]
    · right; simp [dxrStep, hc, selBLAS, uinc_eq_add_one _ hlt]
  | destroyBLAS h => left; simpa [dxrStep, selBLAS] using (dxrDestroyBLAS_frame s h).2.1
  | createTLAS insts a =>
    rcases dxrCreateTLAS_char s insts a with hc | ⟨t, hc⟩
    · left; simp [dxrStep, hc, dxrLog, selBLAS]
    · left; simp [dxrStep, hc, selBLAS]
  | updateTLAS h insts => left; simpa [dxrStep, selBLAS] using (dxrUpdateTLAS_frame s h insts).2.1
  | destroyTLAS h => left; simpa [dxrStep, selBLAS] using (dxrDestroyTLAS_frame s h).2.1
  | traceRays opts => left; simpa [dxrStep, selBLAS] using (dxrTraceRays_frame s opts).2.1

theorem dxrStep_tlasCtr (s : DxrState) (op : DxrOp) (hlt : s.nextTLASId + 1 < 2 ^ 32) :
    ((dxrStep s op).2.filterMap selTLAS = [] ∧
      (dxrStep s op).1.nextTLASId = s.nextTLASId) ∨
    ((dxrStep s op).2.filterMap selTLAS = [s.nextTLASId] ∧
      (dxrStep s op).1.nextTLASId = s.nextTLASId + 1) := by
  cases op with
  | createGeometry d a =>
    rcases dxrCreateGeometry_char s d a with hc | ⟨g, hc⟩
    · left; simp [dxrStep, hc, dxrLog, selTLAS]
    · left; simp [dxrStep, hc, selTLAS]
  | destroyGeometry h => left; simpa [dxrStep, selTLAS] using (dxrDestroyGeometry_frame s h).2.2.1
  | createBLAS gs a =>
    rcases dxrCreateBLAS_char s gs a with hc | ⟨b, hc⟩
    · left; simp [dxrStep, hc, dxrLog, selTLAS]
    · left; simp [dxrStep, hc, selTLAS]
  | destroyBLAS h => left; simpa [dxrStep, selTLAS] using (dxrDestroyBLAS_frame s h).2.2.1
  | createTLAS insts a =>
    rcases dxrCreateTLAS_char s insts a with hc | ⟨t, hc⟩
    · left; simp [dxrStep, hc, dxrLog, selTLAS]
    · right; simp [dxrStep, hc, selTLAS, uinc_eq_add_one _ hlt]
  | updateTLAS h insts => left; simpa [dxrStep, selTLAS] using (dxrUpdateTLAS_frame s h insts).2.2.1
  | destroyTLAS h => left; simpa [dxrStep, selTLAS] using (dxrDestroyTLAS_frame s h).2.2.1
  | traceRays opts => left; simpa [dxrStep, selTLAS] using (dxrTraceRays_frame s opts).2.2.1

theorem vkStep_flags (s : VkState) (op : VkOp) :
    (vkStep s op).1.initialized = s.initialized ∧
    (vkStep s op).1.rtSupported = s.rtSupported := by
  cases op with
  | createGeometry d a =>
    rcases vkCreateGeometry_char s d a with hc | ⟨g, hc⟩ <;> simp [vkStep, hc, vkLog]
  | destroyGeometry h =>
    exact ⟨(vkDestroyGeometry_frame s h).2.2.2.1, (vkDestroyGeometry_frame s h).2.2.2.2⟩
  | createBLAS gs a =>
    rcases vkCreateBLAS_char s gs a with hc | ⟨b, hc⟩ <;> simp [vkStep, hc, vkLog]
  | destroyBLAS h =>
    exact ⟨(vkDestroyBLAS_frame s h).2.2.2.1, (vkDestroyBLAS_frame s h).2.2.2.2⟩
  | createTLAS insts a =>
    rcases vkCreateTLAS_char s insts a with hc | ⟨t, hc⟩ <;> simp [vkStep, hc, vkLog]
  | updateTLAS h insts =>
    exact ⟨(vkUpdateTLAS_frame s h insts).2.2.2.1, (vkUpdateTLAS_frame s h insts).2.2.2.2⟩
  | destroyTLAS h =>
    exact ⟨(vkDestroyTLAS_frame s h).2.2.2.1, (vkDestroyTLAS_frame s h).2.2.2.2⟩
  | traceRays opts =>
    exact ⟨(vkTraceRays_frame s opts).2.2.2.1, (vkTraceRays_frame s opts).2.2.2.2⟩

theorem dxrStep_flags (s : DxrState) (op : DxrOp) :
    (dxrStep s op).1.initialized = s.initialized ∧
    (dxrStep s op).1.rtSupported = s.rtSupported := by
  cases op with
  | createGeometry d a =>
    rcases dxrCreateGeometry_char s d a with hc | ⟨g, hc⟩ <;> simp [dxrStep, hc, dxrLog]
  | destroyGeometry h =>
    exact ⟨(dxrDestroyGeometry_frame s h).2.2.2.1, (dxrDestroyGeometry_frame s h).2.2.2.2⟩
  | createBLAS gs a =>
    rcases dxrCreateBLAS_char s gs a with hc | ⟨b, hc⟩ <;> simp [dxrStep, hc, dxrLog]
  | destroyBLAS h =>
    exact ⟨(dxrDestroyBLAS_frame s h).2.2.2.1, (dxrDestroyBLAS_frame s h).2.2.2.2⟩
  | createTLAS insts a =>
    rcases dxrCreateTLAS_char s insts a with hc | ⟨t, hc⟩ <;> simp [dxrStep, hc, dxrLog]
  | updateTLAS h insts =>
    exact ⟨(dxrUpdateTLAS_frame s h insts).2.2.2.1, (dxrUpdateTLAS_frame s h insts).2.2.2.2⟩
  | destroyTLAS h =>
    exact ⟨(dxrDestroyTLAS_frame s h).2.2.2.1, (dxrDestroyTLAS_frame s h).2.2.2.2⟩
  | traceRays opts =>
    exact ⟨(dxrTraceRays_frame s opts).2.2.2.1, (dxrTraceRays_frame s opts).2.2.2.2⟩

/-- A projection preserved by every step is preserved by every trace. -/
theorem runFold_proj_const {σ ω α : Type} (step : σ → ω → σ × List IssueEvent)
    (proj : σ → α) (h : ∀ s op, proj (step s op).1 = proj s) :
    ∀ (ops : List ω) (s : σ), proj (runFold step s ops).1 = proj s := by
  intro ops
  induction ops with
  | nil => intro s; rfl
  | cons op ops ih =>
    intro s
    have : runFold step s (op :: ops) =
        ((runFold step (step s op).1 ops).1,
         (step s op).2 ++ (runFold step (step s op).1 ops).2) := rfl
    rw [this]
    exact (ih (step s op).1).trans (h s op)

/-! ## Claims -/

/-- C1: for every TLAS instance supplied to `createTLAS` or `updateTLAS`,
the internally stored 3x4 row-major transform satisfies
`output[row][col] = input[col*4+row]` for `row ∈ [0,3)`, `col ∈ [0,4)`,
in both backends.  `vkInstanceRecordOf` / `dxrInstanceRecordOf` are
exactly the per-instance records `createTLAS` and `updateTLAS` write into
the TLAS instance buffer for every instance with a non-null BLAS pointer;
entries are opaque 32-bit patterns that are only copied, so the
conversion is bit-exact. -/
theorem claim1_transform_roundtrip (r : Fin 3) (c : Fin 4)
    (instV : RTTLASInstance VulkanBLAS) (bV : VulkanBLAS)
    (instD : RTTLASInstance DXRBLAS) (bD : DXRBLAS) :
    (vkInstanceRecordOf instV bV).transform r c = instV.transform (colIdx r c) ∧
    (dxrInstanceRecordOf instD bD).transform r c = instD.transform (colIdx r c) :=
  ⟨convertTransform34_spec instV.transform r c, convertTransform34_spec instD.transform r c⟩

/-- C2: within one backend instance, every successful create returns a
nonzero id strictly greater than every id previously issued from the same
resource table, and a destroyed id is never reissued (the per-table
counters start at 1 and only increment, so the issued sequence is
strictly increasing — in particular no previously issued, hence no
destroyed, id ever reappears).  Stated for both backends over arbitrary
call traces from an instance whose counters are at their initial value 1
(both a fresh and a freshly initialized instance satisfy this);
the length bound keeps the `uint32` counters from wrapping. -/
theorem claim2_monotone_ids (ops : List VkOp) (dops : List DxrOp)
    (s0 : VkState) (t0 : DxrState)
    (hs : s0.nextGeometryId = 1 ∧ s0.nextBLASId = 1 ∧ s0.nextTLASId = 1)
    (ht : t0.nextGeometryId = 1 ∧ t0.nextBLASId = 1 ∧ t0.nextTLASId = 1)
    (hlen : ops.length + 1 < 2 ^ 32) (hdlen : dops.length + 1 < 2 ^ 32) :
    (List.Pairwise (· < ·) ((vkRun s0 ops).2.filterMap selGeom) ∧
      ∀ x ∈ (vkRun s0 ops).2.filterMap selGeom, 0 < x) ∧
    (List.Pairwise (· < ·) ((vkRun s0 ops).2.filterMap selBLAS) ∧
      ∀ x ∈ (vkRun s0 ops).2.filterMap selBLAS, 0 < x) ∧
    (List.Pairwise (· < ·) ((vkRun s0 ops).2.filterMap selTLAS) ∧
      ∀ x ∈ (vkRun s0 ops).2.filterMap selTLAS, 0 < x) ∧
    (List.Pairwise (· < ·) ((dxrRun t0 dops).2.filterMap selGeom) ∧
      ∀ x ∈ (dxrRun t0 dops).2.filterMap selGeom, 0 < x) ∧
    (List.Pairwise (· < ·) ((dxrRun t0 dops).2.filterMap selBLAS) ∧
      ∀ x ∈ (dxrRun t0 dops).2.filterMap selBLAS, 0 < x) ∧
    (List.Pairwise (· < ·) ((dxrRun t0 dops).2.filterMap selTLAS) ∧
      ∀ x ∈ (dxrRun t0 dops).2.filterMap selTLAS, 0 < x) := by
  obtain ⟨hg, hb, htl⟩ := hs
  obtain ⟨hgd, hbd, htld⟩ := ht
  refine ⟨?_, ?_, ?_, ?_, ?_, ?_⟩
  · have h := runFold_issued vkStep (fun s => s.nextGeometryId) selGeom
      (fun s op hlt => vkStep_geomCtr s op hlt) ops s0
      (by show s0.nextGeometryId + ops.length < 2 ^ 32; omega)
    refine ⟨h.1, fun x hx => ?_⟩
    have h2 : s0.nextGeometryId ≤ x := h.2 x hx
    omega
  · have h := runFold_issued vkStep (fun s => s.nextBLASId) selBLAS
      (fun s op hlt => vkStep_blasCtr s op hlt) ops s0
      (by show s0.nextBLASId + ops.length < 2 ^ 32; omega)
    refine ⟨h.1, fun x hx => ?_⟩
    have h2 : s0.nextBLASId ≤ x := h.2 x hx
    omega
  · have h := runFold_issued vkStep (fun s => s.nextTLASId) selTLAS
      (fun s op hlt => vkStep_tlasCtr s op hlt) ops s0
      (by show s0.nextTLASId + ops.length < 2 ^ 32; omega)
    refine ⟨h.1, fun x hx => ?_⟩
    have h2 : s0.nextTLASId ≤ x := h.2 x hx
    omega
  · have h := runFold_issued dxrStep (fun s => s.nextGeometryId) selGeom
      (fun s op hlt => dxrStep_geomCtr s op hlt) dops t0
      (by show t0.nextGeometryId + dops.length < 2 ^ 32; omega)
    refine ⟨h.1, fun x hx => ?_⟩
    have h2 : t0.nextGeometryId ≤ x := h.2 x hx
    omega
  · have h := runFold_issued dxrStep (fun s => s.nextBLASId) selBLAS
      (fun s op hlt => dxrStep_blasCtr s op hlt) dops t0
      (by show t0.nextBLASId + dops.length < 2 ^ 32; omega)
    refine ⟨h.1, fun x hx => ?_⟩
    have h2 : t0.nextBLASId ≤ x := h.2 x hx
    omega
  · have h := runFold_issued dxrStep (fun s => s.nextTLASId) selTLAS
      (fun s op hlt => dxrStep_tlasCtr s op hlt) dops t0
      (by show t0.nextTLASId + dops.length < 2 ^ 32; omega)
    refine ⟨h.1, fun x hx => ?_⟩
    have h2 : t0.nextTLASId ≤ x := h.2 x hx
    omega

/-- Two geometry creations followed by a BLAS and a TLAS creation. -/
def vkOpsSample : List VkOp :=
  [.createGeometry {} {}, .createGeometry { vertexCount := 3 } {},
   .createBLAS [{ id := 1 }] {}, .createTLAS [] {}]

/-- The same trace for the DXR backend. -/
def dxrOpsSample : List DxrOp :=
  [.createGeometry {} {}, .createGeometry { vertexCount := 3 } {},
   .createBLAS [{ id := 1 }] {}, .createTLAS [] {}]

theorem claim2_monotone_ids_witness :
    (List.Pairwise (· < ·) ((vkRun vkReady vkOpsSample).2.filterMap selGeom) ∧
      ∀ x ∈ (vkRun vkReady vkOpsSample).2.filterMap selGeom, 0 < x) ∧
    (List.Pairwise (· < ·) ((vkRun vkReady vkOpsSample).2.filterMap selBLAS) ∧
      ∀ x ∈ (vkRun vkReady vkOpsSample).2.filterMap selBLAS, 0 < x) ∧
    (List.Pairwise (· < ·) ((vkRun vkReady vkOpsSample).2.filterMap selTLAS) ∧
      ∀ x ∈ (vkRun vkReady vkOpsSample).2.filterMap selTLAS, 0 < x) ∧
    (List.Pairwise (· < ·) ((dxrRun dxrReady dxrOpsSample).2.filterMap selGeom) ∧
      ∀ x ∈ (dxrRun dxrReady dxrOpsSample).2.filterMap selGeom, 0 < x) ∧
    (List.Pairwise (· < ·) ((dxrRun dxrReady dxrOpsSample).2.filterMap selBLAS) ∧
      ∀ x ∈ (dxrRun dxrReady dxrOpsSample).2.filterMap selBLAS, 0 < x) ∧
    (List.Pairwise (· < ·) ((dxrRun dxrReady dxrOpsSample).2.filterMap selTLAS) ∧
      ∀ x ∈ (dxrRun dxrReady dxrOpsSample).2.filterMap selTLAS, 0 < x) :=
  claim2_monotone_ids vkOpsSample dxrOpsSample vkReady dxrReady
    ⟨rfl, rfl, rfl⟩ ⟨rfl, rfl, rfl⟩ (by decide) (by decide)

/-- C3 counterexample: on an initialized Vulkan backend, `createGeometry`
with `vertexCount = 0` and succeeding allocations returns the valid
handle `{1, non-null}` and inserts a record into the geometry table —
neither backend's `createGeometry` contains a `vertexCount == 0` check,
so the call does not "always return the invalid handle and leave no entry
in the resource table" as claimed. -/
theorem claim3_counterexample :
    (vkCreateGeometry vkReady { vertexCount := 0 } {}).2.id = 1 ∧
    (vkCreateGeometry vkReady { vertexCount := 0 } {}).2.ptr.isSome = true ∧
    (vkCreateGeometry vkReady { vertexCount := 0 } {}).1.geometries.length = 1 :=
  ⟨rfl, rfl, rfl⟩

/-- C3 (amended): every create call returns the invalid handle `{0, null}`
and leaves its resource table untouched (only an error line is logged)
whenever the backend is not initialized or any underlying GPU allocation
fails, and `createBLAS`/`createTLAS` additionally whenever `count = 0`;
`createGeometry`, by contrast, has no `vertexCount = 0` check — a
zero-vertex-count call proceeds like any other (see the
counterexample). -/
theorem claim3_create_failure_invalid
    (s : VkState) (t : DxrState) (d : RTGeometryDesc) (ga : VkGeomAlloc)
    (gs : List (RTHandle VulkanGeometry)) (ba : VkBLASAlloc)
    (insts : List (RTTLASInstance VulkanBLAS)) (ta : VkTLASAlloc)
    (dd : RTGeometryDesc) (gad : VkGeomAlloc)
    (gsd : List (RTHandle DXRGeometry)) (bad : DxrBLASAlloc)
    (instsd : List (RTTLASInstance DXRBLAS)) (tad : DxrTLASAlloc) :
    (s.initialized = false ∨ ga.vertexOk = false →
      vkCreateGeometry s d ga = (vkLog s, {})) ∧
    (d.hasIndices = true ∧ 0 < d.indexCount ∧ ga.indexOk = false →
      vkCreateGeometry s d ga = (vkLog s, {})) ∧
    (s.initialized = false ∨ gs.length = 0 ∨ ba.bufferOk = false ∨ ba.asOk = false ∨
        ba.scratchOk = false →
      vkCreateBLAS s gs ba = (vkLog s, {})) ∧
    (s.initialized = false ∨ insts.length = 0 ∨ ta.instOk = false ∨ ta.bufferOk = false ∨
        ta.asOk = false ∨ ta.scratchOk = false →
      vkCreateTLAS s insts ta = (vkLog s, {})) ∧
    (t.initialized = false ∨ gad.vertexOk = false →
      dxrCreateGeometry t dd gad = (dxrLog t, {})) ∧
    (dd.hasIndices = true ∧ 0 < dd.indexCount ∧ gad.indexOk = false →
      dxrCreateGeometry t dd gad = (dxrLog t, {})) ∧
    (t.initialized = false ∨ gsd.length = 0 ∨ bad.scratchOk = false ∨ bad.asOk = false →
      dxrCreateBLAS t gsd bad = (dxrLog t, {})) ∧
    (t.initialized = false ∨ instsd.length = 0 ∨ tad.instOk = false ∨
        tad.scratchOk = false ∨ tad.asOk = false →
      dxrCreateTLAS t instsd tad = (dxrLog t, {})) := by
  refine ⟨?_, ?_, ?_, ?_, ?_, ?_, ?_, ?_⟩
  · intro h
    unfold vkCreateGeometry
    split_ifs <;> first | rfl | tauto
  · intro h
    unfold vkCreateGeometry
    split_ifs <;> first | rfl | tauto
  · intro h
    unfold vkCreateBLAS
    split_ifs <;> first | rfl | tauto
  · intro h
    unfold vkCreateTLAS
    rcases hm : insts.mapM (fun inst => inst.blas.ptr.map (vkInstanceRecordOf inst)) with _ | records <;>
      simp only [hm] <;> split_ifs <;> first | rfl | tauto
  · intro h
    unfold dxrCreateGeometry
    split_ifs <;> first | rfl | tauto
  · intro h
    unfold dxrCreateGeometry
    split_ifs <;> first | rfl | tauto
  · intro h
    unfold dxrCreateBLAS
    split_ifs <;> first | rfl | tauto
  · intro h
    unfold dxrCreateTLAS
    rcases hm : instsd.mapM (fun inst => inst.blas.ptr.map (dxrInstanceRecordOf inst)) with _ | records <;>
      simp only [hm] <;> split_ifs <;> first | rfl | tauto

theorem claim3_create_failure_invalid_witness :
    vkCreateGeometry vkFresh {} {} = (vkLog vkFresh, {}) ∧
    vkCreateBLAS vkReady [] {} = (vkLog vkReady, {}) ∧
    vkCreateTLAS vkReady [] {} = (vkLog vkReady, {}) ∧
    dxrCreateGeometry dxrFresh {} {} = (dxrLog dxrFresh, {}) ∧
    dxrCreateBLAS dxrReady [] {} = (dxrLog dxrReady, {}) ∧
    dxrCreateTLAS dxrReady [] {} = (dxrLog dxrReady, {}) :=
  ⟨(claim3_create_failure_invalid vkFresh dxrFresh {} {} [] {} [] {} {} {} [] {} [] {}).1
      (Or.inl rfl),
   (claim3_create_failure_invalid vkReady dxrReady {} {} [] {} [] {} {} {} [] {} [] {}).2.2.1
      (Or.inr (Or.inl rfl)),
   (claim3_create_failure_invalid vkReady dxrReady {} {} [] {} [] {} {} {} [] {} [] {}).2.2.2.1
      (Or.inr (Or.inl rfl)),
   (claim3_create_failure_invalid vkFresh dxrFresh {} {} [] {} [] {} {} {} [] {} [] {}).2.2.2.2.1
      (Or.inl rfl),
   (claim3_create_failure_invalid vkReady dxrReady {} {} [] {} [] {} {} {} [] {} [] {}).2.2.2.2.2.2.1
      (Or.inr (Or.inl rfl)),
   (claim3_create_failure_invalid vkReady dxrReady {} {} [] {} [] {} {} {} [] {} [] {}).2.2.2.2.2.2.2
      (Or.inr (Or.inl rfl))⟩

/-- C4: `updateTLAS` with an unknown TLAS id, or with a `count` different
from the instance count fixed at creation, is rejected: apart from the
error line (`errorLogs`), the state — in particular the TLAS table with
every record's instance-buffer contents and acceleration structure — is
exactly as before the call.  Both backends. -/
theorem claim4_update_mismatch_noop
    (s : VkState) (h : RTHandle VulkanTLAS) (insts : List (RTTLASInstance VulkanBLAS))
    (t : DxrState) (hd : RTHandle DXRTLAS) (instsd : List (RTTLASInstance DXRBLAS)) :
    (s.tlases.lookup h.id = none → vkUpdateTLAS s h insts = vkLog s) ∧
    (∀ tl, s.tlases.lookup h.id = some tl → insts.length ≠ tl.instanceCount →
      vkUpdateTLAS s h insts = vkLog s) ∧
    (t.tlases.lookup hd.id = none → dxrUpdateTLAS t hd instsd = dxrLog t) ∧
    (∀ tl, t.tlases.lookup hd.id = some tl → instsd.length ≠ tl.instanceCount →
      dxrUpdateTLAS t hd instsd = dxrLog t) := by
  refine ⟨?_, ?_, ?_, ?_⟩
  · intro hlk
    unfold vkUpdateTLAS
    rw [hlk]
  · intro tl hlk hne
    unfold vkUpdateTLAS
    rw [hlk]
    simp [hne]
  · intro hlk
    unfold dxrUpdateTLAS
    rw [hlk]
  · intro tl hlk hne
    unfold dxrUpdateTLAS
    rw [hlk]
    simp [hne]

theorem claim4_update_mismatch_noop_witness :
    vkUpdateTLAS vkReady { id := 1 } [] = vkLog vkReady ∧
    dxrUpdateTLAS dxrReady { id := 1 } [] = dxrLog dxrReady :=
  ⟨(claim4_update_mismatch_noop vkReady { id := 1 } [] dxrReady { id := 1 } []).1 rfl,
   (claim4_update_mismatch_noop vkReady { id := 1 } [] dxrReady { id := 1 } []).2.2.1 rfl⟩

/-- C5 counterexample: with the SBT upload buffer at GPU virtual address
65536 (committed D3D12 buffers are 64KiB-aligned), the DXR miss-shader
record starts at 65568, which is not a multiple of the 64-byte
`D3D12_RAYTRACING_SHADER_TABLE_BYTE_ALIGNMENT` — the DXR backend packs
its three records at 32-byte strides, so the miss region's start address
is not a multiple of the D3D12 shader-table base alignment, contrary to
the claim. -/
theorem claim5_counterexample :
    ¬ D3D12_SHADER_TABLE_BYTE_ALIGNMENT ∣ dxrMissShaderRecord 65536 := by decide

/-- C5 (amended): after the SBT is built the three regions occupy pairwise
non-overlapping byte ranges in both backends.  In the Vulkan backend each
region's start address is a multiple of `shaderGroupBaseAlignment`
provided the buffer's device address is itself so aligned (the power-of-2
alignments are device-reported; the source does not align the buffer
base).  In the DXR backend, for a buffer base aligned to the 64-byte
shader-table base alignment (committed D3D12 buffers are 64KiB-aligned),
all three record starts are multiples of the 32-byte shader-record
alignment, and the raygen and hit-group starts (`base + 0`, `base + 64`)
are also multiples of the table base alignment — but the miss start
(`base + 32`) is not (see the counterexample). -/
theorem claim5_sbt_regions (hS j k addr base : Nat)
    (hk : k ≤ 32)
    (haddr : 2 ^ k ∣ addr) (hbase : D3D12_SHADER_TABLE_BYTE_ALIGNMENT ∣ base) :
    (rangesDisjoint (vkMakeSBTRegions hS (2 ^ j) (2 ^ k) addr).raygen.deviceAddress
        (vkMakeSBTRegions hS (2 ^ j) (2 ^ k) addr).raygen.size
        (vkMakeSBTRegions hS (2 ^ j) (2 ^ k) addr).miss.deviceAddress
        (vkMakeSBTRegions hS (2 ^ j) (2 ^ k) addr).miss.size ∧
      rangesDisjoint (vkMakeSBTRegions hS (2 ^ j) (2 ^ k) addr).raygen.deviceAddress
        (vkMakeSBTRegions hS (2 ^ j) (2 ^ k) addr).raygen.size
        (vkMakeSBTRegions hS (2 ^ j) (2 ^ k) addr).hit.deviceAddress
        (vkMakeSBTRegions hS (2 ^ j) (2 ^ k) addr).hit.size ∧
      rangesDisjoint (vkMakeSBTRegions hS (2 ^ j) (2 ^ k) addr).miss.deviceAddress
        (vkMakeSBTRegions hS (2 ^ j) (2 ^ k) addr).miss.size
        (vkMakeSBTRegions hS (2 ^ j) (2 ^ k) addr).hit.deviceAddress
        (vkMakeSBTRegions hS (2 ^ j) (2 ^ k) addr).hit.size) ∧
    (2 ^ k ∣ (vkMakeSBTRegions hS (2 ^ j) (2 ^ k) addr).raygen.deviceAddress ∧
      2 ^ k ∣ (vkMakeSBTRegions hS (2 ^ j) (2 ^ k) addr).miss.deviceAddress ∧
      2 ^ k ∣ (vkMakeSBTRegions hS (2 ^ j) (2 ^ k) addr).hit.deviceAddress) ∧
    (rangesDisjoint (dxrRaygenShaderRecord base) dxrShaderRecordSize
        (dxrMissShaderRecord base) dxrShaderRecordSize ∧
      rangesDisjoint (dxrRaygenShaderRecord base) dxrShaderRecordSize
        (dxrHitGroupShaderRecord base) dxrShaderRecordSize ∧
      rangesDisjoint (dxrMissShaderRecord base) dxrShaderRecordSize
        (dxrHitGroupShaderRecord base) dxrShaderRecordSize) ∧
    (D3D12_SHADER_RECORD_BYTE_ALIGNMENT ∣ dxrRaygenShaderRecord base ∧
      D3D12_SHADER_RECORD_BYTE_ALIGNMENT ∣ dxrMissShaderRecord base ∧
      D3D12_SHADER_RECORD_BYTE_ALIGNMENT ∣ dxrHitGroupShaderRecord base) ∧
    (D3D12_SHADER_TABLE_BYTE_ALIGNMENT ∣ dxrRaygenShaderRecord base ∧
      D3D12_SHADER_TABLE_BYTE_ALIGNMENT ∣ dxrHitGroupShaderRecord base) := by
  have hrec : dxrShaderRecordSize = 32 := by decide
  have h32 : D3D12_SHADER_RECORD_BYTE_ALIGNMENT ∣ base :=
    Nat.dvd_trans (by decide) hbase
  have hdvd : (2 : Nat) ^ k ∣ alignUp32 (alignUp32 hS (2 ^ j)) (2 ^ k) :=
    alignUp32_dvd _ _ hk
  refine ⟨⟨?_, ?_, ?_⟩, ⟨?_, ?_, ?_⟩, ⟨?_, ?_, ?_⟩, ⟨?_, ?_, ?_⟩, ⟨?_, ?_⟩⟩
  · simp [vkMakeSBTRegions, rangesDisjoint]
  · simp [vkMakeSBTRegions, rangesDisjoint]
  · simp [vkMakeSBTRegions, rangesDisjoint]
  · simpa [vkMakeSBTRegions] using haddr
  · simpa [vkMakeSBTRegions] using Nat.dvd_add haddr hdvd
  · simpa [vkMakeSBTRegions] using Nat.dvd_add (Nat.dvd_add haddr hdvd) hdvd
  · simp [rangesDisjoint, dxrRaygenShaderRecord, dxrMissShaderRecord, hrec]
  · simp [rangesDisjoint, dxrRaygenShaderRecord, dxrHitGroupShaderRecord, hrec]
  · simp [rangesDisjoint, dxrMissShaderRecord, dxrHitGroupShaderRecord, hrec]
  · simpa [dxrRaygenShaderRecord] using h32
  · have h1 : D3D12_SHADER_RECORD_BYTE_ALIGNMENT ∣ (1 * dxrShaderRecordSize : Nat) := by decide
    exact Nat.dvd_add h32 h1
  · have h2 : D3D12_SHADER_RECORD_BYTE_ALIGNMENT ∣ (2 * dxrShaderRecordSize : Nat) := by decide
    exact Nat.dvd_add h32 h2
  · simpa [dxrRaygenShaderRecord] using hbase
  · have h2 : D3D12_SHADER_TABLE_BYTE_ALIGNMENT ∣ (2 * dxrShaderRecordSize : Nat) := by decide
    exact Nat.dvd_add hbase h2

theorem claim5_sbt_regions_witness :
    ((32 : Nat) ≤ 32 ∧ (2 : Nat) ^ 6 ∣ 128 ∧
      D3D12_SHADER_TABLE_BYTE_ALIGNMENT ∣ (65536 : Nat)) ∧
    (2 ^ 6 ∣ (vkMakeSBTRegions 32 (2 ^ 5) (2 ^ 6) 128).miss.deviceAddress ∧
      D3D12_SHADER_RECORD_BYTE_ALIGNMENT ∣ dxrMissShaderRecord 65536 ∧
      D3D12_SHADER_TABLE_BYTE_ALIGNMENT ∣ dxrHitGroupShaderRecord 65536) :=
  ⟨⟨by decide, by decide, by decide⟩,
   (claim5_sbt_regions 32 5 6 128 65536 (by decide) (by decide) (by decide)).2.1.2.1,
   (claim5_sbt_regions 32 5 6 128 65536 (by decide) (by decide) (by decide)).2.2.2.1.2.1,
   (claim5_sbt_regions 32 5 6 128 65536 (by decide) (by decide) (by decide)).2.2.2.2.2⟩
/-- Branch characterisation of `vkTraceRays` on an initialized backend with
a valid TLAS pointer: same size — only the dispatch happens; changed
size — the output image and staging buffer are released and recreated
exactly once and the stored size updated. -/
theorem vkTraceRays_char (s : VkState) (opts : TraceRaysOptions VulkanTLAS)
    (tl : VulkanTLAS) (hs : s.initialized = true) (hp : opts.tlas.ptr = some tl) :
    ((opts.width = s.outputWidth ∧ opts.height = s.outputHeight) ∧
      vkTraceRays s opts = { s with traceCount := s.traceCount + 1 }) ∨
    (¬(opts.width = s.outputWidth ∧ opts.height = s.outputHeight) ∧
      vkTraceRays s opts =
        { s with outputWidth := opts.width, outputHeight := opts.height,
                 outputImage := true, outputAllocCount := s.outputAllocCount + 1,
                 stagingBuffer := { allocated := true,
                                    size := opts.width * opts.height * 4 % 2 ^ 32 },
                 stagingAllocCount := s.stagingAllocCount + 1,
                 traceCount := s.traceCount + 1 }) := by
  unfold vkTraceRays
  rw [if_neg (by simp [hs]), hp]
  by_cases hc : opts.width ≠ s.outputWidth ∨ opts.height ≠ s.outputHeight
  · right
    rw [if_pos hc]
    exact ⟨by tauto, rfl⟩
  · left
    rw [if_neg hc]
    push_neg at hc
    exact ⟨hc, rfl⟩

/-- Branch characterisation of `dxrTraceRays`, mirroring the Vulkan one. -/
theorem dxrTraceRays_char (s : DxrState) (opts : TraceRaysOptions DXRTLAS)
    (tl : DXRTLAS) (hs : s.initialized = true) (hp : opts.tlas.ptr = some tl) :
    ((opts.width = s.outputWidth ∧ opts.height = s.outputHeight) ∧
      dxrTraceRays s opts = { s with traceCount := s.traceCount + 1 }) ∨
    (¬(opts.width = s.outputWidth ∧ opts.height = s.outputHeight) ∧
      dxrTraceRays s opts =
        { s with outputWidth := opts.width, outputHeight := opts.height,
                 outputTexture := true, outputAllocCount := s.outputAllocCount + 1,
                 readbackBuffer := { allocated := true,
                                     size := opts.width * opts.height * 4 % 2 ^ 32 },
                 readbackAllocCount := s.readbackAllocCount + 1,
                 traceCount := s.traceCount + 1 }) := by
  unfold dxrTraceRays
  rw [if_neg (by simp [hs]), hp]
  by_cases hc : opts.width ≠ s.outputWidth ∨ opts.height ≠ s.outputHeight
  · right
    rw [if_pos hc]
    exact ⟨by tauto, rfl⟩
  · left
    rw [if_neg hc]
    push_neg at hc
    exact ⟨hc, rfl⟩

/-- C6: `traceRays` reallocates the output image/texture and the readback
(staging) buffer iff `(width, height)` differs from the stored output
size (the size set by the last reallocating call): an identical-size call
changes nothing but the dispatch counter, a size change bumps both
allocation counters by exactly one and sizes the readback buffer
`width*height*4` (computed in `uint32` arithmetic; equal to the exact
product whenever it fits in 32 bits), and an immediately repeated call
with the same options never reallocates.  Both backends. -/
theorem claim6_trace_realloc (s : VkState) (opts : TraceRaysOptions VulkanTLAS)
    (tl : VulkanTLAS) (t : DxrState) (optsd : TraceRaysOptions DXRTLAS) (tld : DXRTLAS)
    (hs : s.initialized = true) (hp : opts.tlas.ptr = some tl)
    (ht : t.initialized = true) (hpd : optsd.tlas.ptr = some tld) :
    ((opts.width = s.outputWidth ∧ opts.height = s.outputHeight) →
      vkTraceRays s opts = { s with traceCount := s.traceCount + 1 }) ∧
    (¬(opts.width = s.outputWidth ∧ opts.height = s.outputHeight) →
      (vkTraceRays s opts).outputAllocCount = s.outputAllocCount + 1 ∧
      (vkTraceRays s opts).stagingAllocCount = s.stagingAllocCount + 1 ∧
      (vkTraceRays s opts).stagingBuffer.size = opts.width * opts.height * 4 % 2 ^ 32 ∧
      (vkTraceRays s opts).outputWidth = opts.width ∧
      (vkTraceRays s opts).outputHeight = opts.height) ∧
    (opts.width * opts.height * 4 < 2 ^ 32 →
      ¬(opts.width = s.outputWidth ∧ opts.height = s.outputHeight) →
      (vkTraceRays s opts).stagingBuffer.size = opts.width * opts.height * 4) ∧
    ((vkTraceRays (vkTraceRays s opts) opts).outputAllocCount =
        (vkTraceRays s opts).outputAllocCount ∧
      (vkTraceRays (vkTraceRays s opts) opts).stagingAllocCount =
        (vkTraceRays s opts).stagingAllocCount ∧
      (vkTraceRays (vkTraceRays s opts) opts).stagingBuffer =
        (vkTraceRays s opts).stagingBuffer) ∧
    ((optsd.width = t.outputWidth ∧ optsd.height = t.outputHeight) →
      dxrTraceRays t optsd = { t with traceCount := t.traceCount + 1 }) ∧
    (¬(optsd.width = t.outputWidth ∧ optsd.height = t.outputHeight) →
      (dxrTraceRays t optsd).outputAllocCount = t.outputAllocCount + 1 ∧
      (dxrTraceRays t optsd).readbackAllocCount = t.readbackAllocCount + 1 ∧
      (dxrTraceRays t optsd).readbackBuffer.size =
        optsd.width * optsd.height * 4 % 2 ^ 32 ∧
      (dxrTraceRays t optsd).outputWidth = optsd.width ∧
      (dxrTraceRays t optsd).outputHeight = optsd.height) ∧
    (optsd.width * optsd.height * 4 < 2 ^ 32 →
      ¬(optsd.width = t.outputWidth ∧ optsd.height = t.outputHeight) →
      (dxrTraceRays t optsd).readbackBuffer.size = optsd.width * optsd.height * 4) ∧
    ((dxrTraceRays (dxrTraceRays t optsd) optsd).outputAllocCount =
        (dxrTraceRays t optsd).outputAllocCount ∧
      (dxrTraceRays (dxrTraceRays t optsd) optsd).readbackAllocCount =
        (dxrTraceRays t optsd).readbackAllocCount ∧
      (dxrTraceRays (dxrTraceRays t optsd) optsd).readbackBuffer =
        (dxrTraceRays t optsd).readbackBuffer) := by
  have c1 := vkTraceRays_char s opts tl hs hp
  have d1 := dxrTraceRays_char t optsd tld ht hpd
  have hs2 : (vkTraceRays s opts).initialized = true := by
    rcases c1 with ⟨_, heq⟩ | ⟨_, heq⟩ <;> rw [heq] <;> exact hs
  have ht2 : (dxrTraceRays t optsd).initialized = true := by
    rcases d1 with ⟨_, heq⟩ | ⟨_, heq⟩ <;> rw [heq] <;> exact ht
  have c2 := vkTraceRays_char (vkTraceRays s opts) opts tl hs2 hp
  have d2 := dxrTraceRays_char (dxrTraceRays t optsd) optsd tld ht2 hpd
  refine ⟨?_, ?_, ?_, ?_, ?_, ?_, ?_, ?_⟩
  · intro hsame
    rcases c1 with ⟨_, heq⟩ | ⟨hne, _⟩
    · exact heq
    · exact absurd hsame hne
  · intro hne
    rcases c1 with ⟨hsame, _⟩ | ⟨_, heq⟩
    · exact absurd hsame hne
    · refine ⟨?_, ?_, ?_, ?_, ?_⟩ <;> rw [heq]
  · intro hfit hne
    rcases c1 with ⟨hsame, _⟩ | ⟨_, heq⟩
    · exact absurd hsame hne
    · rw [heq]
      exact Nat.mod_eq_of_lt hfit
  · rcases c2 with ⟨_, heq2⟩ | ⟨hne2, _⟩
    · rw [heq2]
      exact ⟨rfl, rfl, rfl⟩
    · exfalso
      apply hne2
      rcases c1 with ⟨hsame, heq⟩ | ⟨_, heq⟩ <;> rw [heq]
      · exact hsame
      · exact ⟨rfl, rfl⟩
  · intro hsame
    rcases d1 with ⟨_, heq⟩ | ⟨hne, _⟩
    · exact heq
    · exact absurd hsame hne
  · intro hne
    rcases d1 with ⟨hsame, _⟩ | ⟨_, heq⟩
    · exact absurd hsame hne
    · refine ⟨?_, ?_, ?_, ?_, ?_⟩ <;> rw [heq]
  · intro hfit hne
    rcases d1 with ⟨hsame, _⟩ | ⟨_, heq⟩
    · exact absurd hsame hne
    · rw [heq]
      exact Nat.mod_eq_of_lt hfit
  · rcases d2 with ⟨_, heq2⟩ | ⟨hne2, _⟩
    · rw [heq2]
      exact ⟨rfl, rfl, rfl⟩
    · exfalso
      apply hne2
      rcases d1 with ⟨hsame, heq⟩ | ⟨_, heq⟩ <;> rw [heq]
      · exact hsame
      · exact ⟨rfl, rfl⟩

/-- Trace options drawing a 256x256 frame from a (model) TLAS handle. -/
def vkOpts256 : TraceRaysOptions VulkanTLAS :=
  { tlas := { id := 1, ptr := some {} }, width := 256, height := 256 }

/-- The same options for the DXR backend. -/
def dxrOpts256 : TraceRaysOptions DXRTLAS :=
  { tlas := { id := 1, ptr := some {} }, width := 256, height := 256 }

theorem claim6_trace_realloc_witness :
    ((vkTraceRays vkReady vkOpts256).outputAllocCount = vkReady.outputAllocCount + 1 ∧
      (vkTraceRays vkReady vkOpts256).stagingAllocCount = vkReady.stagingAllocCount + 1 ∧
      (vkTraceRays vkReady vkOpts256).stagingBuffer.size =
        vkOpts256.width * vkOpts256.height * 4 % 2 ^ 32 ∧
      (vkTraceRays vkReady vkOpts256).outputWidth = vkOpts256.width ∧
      (vkTraceRays vkReady vkOpts256).outputHeight = vkOpts256.height) ∧
    (vkTraceRays (vkTraceRays vkReady vkOpts256) vkOpts256).outputAllocCount =
      (vkTraceRays vkReady vkOpts256).outputAllocCount ∧
    (dxrTraceRays (dxrTraceRays dxrReady dxrOpts256) dxrOpts256).readbackAllocCount =
      (dxrTraceRays dxrReady dxrOpts256).readbackAllocCount :=
  ⟨(claim6_trace_realloc vkReady vkOpts256 {} dxrReady dxrOpts256 {} rfl rfl rfl rfl).2.1
      (by decide),
   (claim6_trace_realloc vkReady vkOpts256 {} dxrReady dxrOpts256 {} rfl rfl rfl rfl).2.2.2.1.1,
   (claim6_trace_realloc vkReady vkOpts256 {} dxrReady dxrOpts256 {} rfl rfl rfl rfl).2.2.2.2.2.2.2.2.1⟩

/-- C7: the backend factory never returns a null interface: every branch
returns a backend, and when every vendor probe's `initialize()` fails the
stub is returned, whose `getBackendType()` is `None`, whose
`isSupported()` is `false`, and whose every create call logs an error and
returns the invalid handle `{0, null}` (the stub functions are total —
nothing throws). -/
theorem claim7_factory_never_null (hasDXR hasVK hasMetal : Bool)
    (dO : DxrInitOracle) (vO : VkInitOracle) (mOk : Bool) :
    (createRTBackend hasDXR hasVK hasMetal dO vO mOk).isSome = true ∧
    ((dxrInitRT dxrFresh dO).2 = false → (vkInitRT vkFresh vO).2 = false → mOk = false →
      createRTBackend hasDXR hasVK hasMetal dO vO mOk = some .stubBackend) ∧
    stubGetBackendType = .None ∧
    stubIsSupported = false ∧
    (∀ d, stubCreateGeometry d = ({}, true)) ∧
    (∀ gs, stubCreateBLAS gs = ({}, true)) ∧
    (∀ li, stubCreateTLAS li = ({}, true)) := by
  refine ⟨?_, ?_, rfl, rfl, fun _ => rfl, fun _ => rfl, fun _ => rfl⟩
  · unfold createRTBackend
    split_ifs <;> rfl
  · intro h1 h2 h3
    unfold createRTBackend
    split_ifs <;> simp_all

/-- A Vulkan oracle whose very first step (instance creation) fails. -/
def vkInitFailInstance : VkInitOracle := { instanceOk := false }

/-- A DXR oracle whose device creation fails. -/
def dxrInitFailDevice : DxrInitOracle := { deviceOk := false }

theorem claim7_factory_never_null_witness :
    createRTBackend true true true dxrInitFailDevice vkInitFailInstance false =
      some .stubBackend :=
  (claim7_factory_never_null true true true dxrInitFailDevice vkInitFailInstance
      false).2.1 rfl rfl rfl

set_option maxHeartbeats 1000000 in
/-- A failing `initialize()` run on an uninitialized backend leaves the
flags clear and the resource tables untouched. -/
theorem vkInitRT_fail (s : VkState) (o : VkInitOracle) (h0 : s.initialized = false) :
    (vkInitRT s o).2 = false →
    (vkInitRT s o).1.initialized = false ∧
    (vkInitRT s o).1.rtSupported = s.rtSupported ∧
    (vkInitRT s o).1.geometries = s.geometries ∧
    (vkInitRT s o).1.blases = s.blases ∧
    (vkInitRT s o).1.tlases = s.tlases := by
  unfold vkInitRT
  rw [if_neg (by simp [h0])]
  split_ifs <;> intro hf <;> simp at hf <;> exact ⟨h0, rfl, rfl, rfl, rfl⟩

set_option maxHeartbeats 1000000 in
/-- DXR version of `vkInitRT_fail`. -/
theorem dxrInitRT_fail (s : DxrState) (o : DxrInitOracle) (h0 : s.initialized = false) :
    (dxrInitRT s o).2 = false →
    (dxrInitRT s o).1.initialized = false ∧
    (dxrInitRT s o).1.rtSupported = s.rtSupported ∧
    (dxrInitRT s o).1.geometries = s.geometries ∧
    (dxrInitRT s o).1.blases = s.blases ∧
    (dxrInitRT s o).1.tlases = s.tlases := by
  unfold dxrInitRT
  rw [if_neg (by simp [h0])]
  split_ifs <;> intro hf <;> simp at hf <;> exact ⟨h0, rfl, rfl, rfl, rfl⟩

/-- Oracle for a Vulkan run that fails at the very last step (camera UBO),
after the SBT buffer has already been created. -/
def vkInitFailUBO : VkInitOracle := { uboOk := false }

/-- C8 counterexample: an `initialize()` run that fails at the camera-UBO
step returns `false` — yet the SBT buffer (and the instance, device,
pools and pipeline) have already been allocated, and nothing releases
them (the destructor returns early when `initialized_` is false).  So a
failed initialization is not "no resource allocated at all". -/
theorem claim8_counterexample :
    (vkInitRT vkFresh vkInitFailUBO).2 = false ∧
    (vkInitRT vkFresh vkInitFailUBO).1.sbtBuffer.allocated = true ∧
    (vkInitRT vkFresh vkInitFailUBO).1.pipeline = true :=
  ⟨rfl, rfl, rfl⟩

/-- C8 (amended): whenever `initialize()` on a fresh instance returns
`false`, `isSupported()` is `false` and remains `false` across any
subsequent sequence of resource calls (nothing but `initialize()` touches
the two flags), and the geometry/BLAS/TLAS tables stay empty; however
device-level objects created by the steps that already succeeded — up to
and including the SBT buffer — may remain allocated (see the
counterexample). -/
theorem claim8_init_failure (o : VkInitOracle) (od : DxrInitOracle)
    (ops : List VkOp) (dops : List DxrOp)
    (hf : (vkInitRT vkFresh o).2 = false) (hfd : (dxrInitRT dxrFresh od).2 = false) :
    vkIsSupported (vkInitRT vkFresh o).1 = false ∧
    (vkInitRT vkFresh o).1.geometries = [] ∧
    (vkInitRT vkFresh o).1.blases = [] ∧
    (vkInitRT vkFresh o).1.tlases = [] ∧
    vkIsSupported (vkRun (vkInitRT vkFresh o).1 ops).1 = false ∧
    dxrIsSupported (dxrInitRT dxrFresh od).1 = false ∧
    (dxrInitRT dxrFresh od).1.geometries = [] ∧
    (dxrInitRT dxrFresh od).1.blases = [] ∧
    (dxrInitRT dxrFresh od).1.tlases = [] ∧
    dxrIsSupported (dxrRun (dxrInitRT dxrFresh od).1 dops).1 = false := by
  have hv := vkInitRT_fail vkFresh o rfl hf
  have hd := dxrInitRT_fail dxrFresh od rfl hfd
  have hrunv : (vkRun (vkInitRT vkFresh o).1 ops).1.initialized =
      (vkInitRT vkFresh o).1.initialized :=
    runFold_proj_const vkStep (fun s => s.initialized)
      (fun s op => (vkStep_flags s op).1) ops (vkInitRT vkFresh o).1
  have hrund : (dxrRun (dxrInitRT dxrFresh od).1 dops).1.initialized =
      (dxrInitRT dxrFresh od).1.initialized :=
    runFold_proj_const dxrStep (fun s => s.initialized)
      (fun s op => (dxrStep_flags s op).1) dops (dxrInitRT dxrFresh od).1
  refine ⟨?_, hv.2.2.1, hv.2.2.2.1, hv.2.2.2.2, ?_, ?_, hd.2.2.1, hd.2.2.2.1, hd.2.2.2.2, ?_⟩
  · simp [vkIsSupported, hv.1]
  · simp [vkIsSupported, hrunv, hv.1]
  · simp [dxrIsSupported, hd.1]
  · simp [dxrIsSupported, hrund, hd.1]

theorem claim8_init_failure_witness :
    vkIsSupported (vkInitRT vkFresh vkInitFailUBO).1 = false ∧
    vkIsSupported (vkRun (vkInitRT vkFresh vkInitFailUBO).1 vkOpsSample).1 = false ∧
    dxrIsSupported (dxrInitRT dxrFresh dxrInitFailDevice).1 = false :=
  ⟨(claim8_init_failure vkInitFailUBO dxrInitFailDevice vkOpsSample [] rfl rfl).1,
   (claim8_init_failure vkInitFailUBO dxrInitFailDevice vkOpsSample [] rfl rfl).2.2.2.2.1,
   (claim8_init_failure vkInitFailUBO dxrInitFailDevice vkOpsSample [] rfl rfl).2.2.2.2.2.1⟩

/-- A geometry handle whose cached backend pointer is null. -/
def vkNullGeomHandle : RTHandle VulkanGeometry := { id := 7 }

/-- C9 counterexample: on an initialized backend, `createBLAS` with one
geometry handle whose backend pointer is null (count = 1, so the
`count == 0` guard passes) skips the handle and records an
acceleration-structure build command with zero geometry descriptions,
then returns a valid handle — a zero-sized build is attempted, contrary
to the claim. -/
theorem claim9_counterexample :
    (vkCreateBLAS vkReady [vkNullGeomHandle] {}).1.blasBuilds = [0] ∧
    (vkCreateBLAS vkReady [vkNullGeomHandle] {}).2.ptr.isSome = true :=
  ⟨rfl, rfl⟩

/-- C9 (amended): `createBLAS` and `createTLAS` with zero
geometries/instances fail hard (error logged, invalid handle, no build
recorded), and every TLAS build command is recorded with the full nonzero
instance count — but `createBLAS` with a nonzero count records a build
whose geometry-description count is the number of handles with non-null
pointers, which is zero when every pointer is null (see the
counterexample).  Both backends. -/
theorem claim9_zero_builds (s : VkState) (t : DxrState)
    (gs : List (RTHandle VulkanGeometry)) (ba : VkBLASAlloc)
    (insts : List (RTTLASInstance VulkanBLAS)) (ta : VkTLASAlloc)
    (gsd : List (RTHandle DXRGeometry)) (bad : DxrBLASAlloc)
    (instsd : List (RTTLASInstance DXRBLAS)) (tad : DxrTLASAlloc) :
    (gs.length = 0 → vkCreateBLAS s gs ba = (vkLog s, {})) ∧
    (insts.length = 0 → vkCreateTLAS s insts ta = (vkLog s, {})) ∧
    ((vkCreateTLAS s insts ta).1.tlasBuilds = s.tlasBuilds ∨
      ((vkCreateTLAS s insts ta).1.tlasBuilds = s.tlasBuilds ++ [insts.length % 2 ^ 32] ∧
        0 < insts.length)) ∧
    ((vkCreateBLAS s gs ba).1.blasBuilds = s.blasBuilds ∨
      (vkCreateBLAS s gs ba).1.blasBuilds =
        s.blasBuilds ++ [(gs.filterMap (fun h => h.ptr)).length]) ∧
    (gsd.length = 0 → dxrCreateBLAS t gsd bad = (dxrLog t, {})) ∧
    (instsd.length = 0 → dxrCreateTLAS t instsd tad = (dxrLog t, {})) ∧
    ((dxrCreateTLAS t instsd tad).1.tlasBuilds = t.tlasBuilds ∨
      ((dxrCreateTLAS t instsd tad).1.tlasBuilds =
          t.tlasBuilds ++ [instsd.length % 2 ^ 32] ∧
        0 < instsd.length)) ∧
    ((dxrCreateBLAS t gsd bad).1.blasBuilds = t.blasBuilds ∨
      (dxrCreateBLAS t gsd bad).1.blasBuilds =
        t.blasBuilds ++ [(gsd.filterMap (fun h => h.ptr)).length]) := by
  refine ⟨?_, ?_, ?_, ?_, ?_, ?_, ?_, ?_⟩
  · intro h
    unfold vkCreateBLAS
    rw [if_pos (Or.inr h)]
  · intro h
    unfold vkCreateTLAS
    rw [if_pos (Or.inr h)]
  · unfold vkCreateTLAS
    rcases hm : insts.mapM (fun inst => inst.blas.ptr.map (vkInstanceRecordOf inst))
        with _ | records <;>
      simp only [hm] <;> split_ifs with h1 <;>
        try (left; simp [vkLog]; done)
    right
    push_neg at h1
    refine ⟨rfl, by omega⟩
  · unfold vkCreateBLAS
    split_ifs <;> simp [vkLog]
  · intro h
    unfold dxrCreateBLAS
    rw [if_pos (Or.inr h)]
  · intro h
    unfold dxrCreateTLAS
    rw [if_pos (Or.inr h)]
  · unfold dxrCreateTLAS
    rcases hm : instsd.mapM (fun inst => inst.blas.ptr.map (dxrInstanceRecordOf inst))
        with _ | records <;>
      simp only [hm] <;> split_ifs with h1 <;>
        try (left; simp [dxrLog]; done)
    right
    push_neg at h1
    refine ⟨rfl, by omega⟩
  · unfold dxrCreateBLAS
    split_ifs <;> simp [dxrLog]

theorem claim9_zero_builds_witness :
    vkCreateBLAS vkReady [] {} = (vkLog vkReady, {}) ∧
    vkCreateTLAS vkReady [] {} = (vkLog vkReady, {}) ∧
    dxrCreateBLAS dxrReady [] {} = (dxrLog dxrReady, {}) ∧
    dxrCreateTLAS dxrReady [] {} = (dxrLog dxrReady, {}) :=
  ⟨(claim9_zero_builds vkReady dxrReady [] {} [] {} [] {} [] {}).1 rfl,
   (claim9_zero_builds vkReady dxrReady [] {} [] {} [] {} [] {}).2.1 rfl,
   (claim9_zero_builds vkReady dxrReady [] {} [] {} [] {} [] {}).2.2.2.2.1 rfl,
   (claim9_zero_builds vkReady dxrReady [] {} [] {} [] {} [] {}).2.2.2.2.2.1 rfl⟩

/-- If some instance in the list has a null BLAS pointer, building the
instance-record list fails (this is the early `return` in the conversion
loop of `createTLAS`). -/
theorem mapM_instance_none {B R : Type} (f : (inst : RTTLASInstance B) → B → R) :
    ∀ (l : List (RTTLASInstance B)), (∃ inst ∈ l, inst.blas.ptr = none) →
      l.mapM (fun inst => inst.blas.ptr.map (f inst)) = none := by
  intro l
  induction l with
  | nil =>
    rintro ⟨inst, hin, _⟩
    cases hin
  | cons x xs ih =>
    rintro ⟨inst, hin, hnull⟩
    rcases List.mem_cons.mp hin with rfl | hin
    · rw [List.mapM_cons, hnull]
      rfl
    · cases hx : x.blas.ptr with
      | none =>
        rw [List.mapM_cons, hx]
        rfl
      | some b =>
        rw [List.mapM_cons, hx, ih ⟨inst, hin, hnull⟩]
        rfl

/-- C10: the two TLAS entry points treat a null BLAS pointer
asymmetrically — `createTLAS` rejects the whole call with an error and
the invalid handle (no allocation, no table entry), while `updateTLAS`
with the matching count silently (no error log; `errorLogs` is untouched
in the resulting state) stores the value-initialised zero record for that
instance (zero transform, instance id 0, visibility mask 0,
acceleration-structure reference 0) and still submits the refit.  Both
backends. -/
theorem claim10_null_blas_asymmetry
    (s : VkState) (insts : List (RTTLASInstance VulkanBLAS)) (ta : VkTLASAlloc)
    (h : RTHandle VulkanTLAS)
    (t : DxrState) (instsd : List (RTTLASInstance DXRBLAS)) (tad : DxrTLASAlloc)
    (hd : RTHandle DXRTLAS) :
    ((∃ inst ∈ insts, inst.blas.ptr = none) → vkCreateTLAS s insts ta = (vkLog s, {})) ∧
    (∀ tl, s.tlases.lookup h.id = some tl → insts.length = tl.instanceCount →
      vkUpdateTLAS s h insts =
        { s with
            tlases := updEntry s.tlases h.id
              { tl with instanceRecords := insts.map (fun inst =>
                  match inst.blas.ptr with
                  | none => vkZeroInstanceRec
                  | some blasPtr => vkInstanceRecordOf inst blasPtr) }
            tlasBuilds := s.tlasBuilds ++ [insts.length % 2 ^ 32] }) ∧
    ((∀ r c, vkZeroInstanceRec.transform r c = 0) ∧
      vkZeroInstanceRec.instanceCustomIndex = 0 ∧
      vkZeroInstanceRec.mask = 0 ∧
      vkZeroInstanceRec.accelerationStructureReference = 0) ∧
    ((∃ inst ∈ instsd, inst.blas.ptr = none) →
      dxrCreateTLAS t instsd tad = (dxrLog t, {})) ∧
    (∀ tl, t.tlases.lookup hd.id = some tl → instsd.length = tl.instanceCount →
      dxrUpdateTLAS t hd instsd =
        { t with
            tlases := updEntry t.tlases hd.id
              { tl with instanceRecords := instsd.map (fun inst =>
                  match inst.blas.ptr with
                  | none => dxrZeroInstanceRec
                  | some blasPtr => dxrInstanceRecordOf inst blasPtr) }
            tlasBuilds := t.tlasBuilds ++ [instsd.length % 2 ^ 32] }) ∧
    ((∀ r c, dxrZeroInstanceRec.transform r c = 0) ∧
      dxrZeroInstanceRec.instanceID = 0 ∧
      dxrZeroInstanceRec.instanceMask = 0 ∧
      dxrZeroInstanceRec.accelerationStructure = 0) := by
  refine ⟨?_, ?_, ⟨fun _ _ => rfl, rfl, rfl, rfl⟩, ?_, ?_, ⟨fun _ _ => rfl, rfl, rfl, rfl⟩⟩
  · intro hex
    unfold vkCreateTLAS
    rw [mapM_instance_none vkInstanceRecordOf insts hex]
    split_ifs <;> rfl
  · intro tl hlk hlen
    unfold vkUpdateTLAS
    rw [hlk]
    simp [hlen]
  · intro hex
    unfold dxrCreateTLAS
    rw [mapM_instance_none dxrInstanceRecordOf instsd hex]
    split_ifs <;> rfl
  · intro tl hlk hlen
    unfold dxrUpdateTLAS
    rw [hlk]
    simp [hlen]

/-- A BLAS record standing for a live BLAS a valid handle points at. -/
def vkSampleBLAS : VulkanBLAS := { asObj := true, deviceAddress := 4096 }

/-- A TLAS instance with a valid BLAS pointer. -/
def vkValidInst : RTTLASInstance VulkanBLAS :=
  { transform := fun i => i.val, blas := { id := 1, ptr := some vkSampleBLAS },
    instanceId := 7, mask := 255 }

/-- A TLAS instance whose BLAS handle is the invalid `{0, null}`. -/
def vkNullInst : RTTLASInstance VulkanBLAS := { transform := fun i => i.val }

/-- A DXR TLAS instance whose BLAS handle is invalid. -/
def dxrNullInst : RTTLASInstance DXRBLAS := { transform := fun i => i.val }

/-- The backend state after creating a one-instance TLAS. -/
def vkStateWithTLAS : VkState := (vkCreateTLAS vkReady [vkValidInst] {}).1

/-- The TLAS record stored in `vkStateWithTLAS` under id 1. -/
def vkSampleTLASRec : VulkanTLAS :=
  { asObj := true, buffer := { allocated := true },
    instanceBuffer := { allocated := true, size := 64 },
    instanceRecords := [vkInstanceRecordOf vkValidInst vkSampleBLAS],
    deviceAddress := 0, instanceCount := 1 }

theorem claim10_null_blas_asymmetry_witness :
    vkCreateTLAS vkReady [vkNullInst] {} = (vkLog vkReady, {}) ∧
    dxrCreateTLAS dxrReady [dxrNullInst] {} = (dxrLog dxrReady, {}) ∧
    vkUpdateTLAS vkStateWithTLAS { id := 1 } [vkNullInst] =
      { vkStateWithTLAS with
          tlases := updEntry vkStateWithTLAS.tlases 1
            { vkSampleTLASRec with instanceRecords := [vkNullInst].map (fun inst =>
                match inst.blas.ptr with
                | none => vkZeroInstanceRec
                | some blasPtr => vkInstanceRecordOf inst blasPtr) }
          tlasBuilds := vkStateWithTLAS.tlasBuilds ++ [[vkNullInst].length % 2 ^ 32] } :=
  ⟨(claim10_null_blas_asymmetry vkReady [vkNullInst] {} { id := 1 }
      dxrReady [dxrNullInst] {} { id := 1 }).1
      ⟨vkNullInst, List.mem_singleton.mpr rfl, rfl⟩,
   (claim10_null_blas_asymmetry vkReady [vkNullInst] {} { id := 1 }
      dxrReady [dxrNullInst] {} { id := 1 }).2.2.2.1
      ⟨dxrNullInst, List.mem_singleton.mpr rfl, rfl⟩,
   (claim10_null_blas_asymmetry vkStateWithTLAS [vkNullInst] {} { id := 1 }
      dxrReady [dxrNullInst] {} { id := 1 }).2.1 vkSampleTLASRec rfl rfl⟩

end MystralRT
